import Mathlib

/-!
# WhirlyGlobe: the Android vector-manager bindings and the wide-vector tweaker

A shallow embedding of `VectorManager_jni.cpp` (the JNI bindings `initialise`,
`dispose`, `addVectors`, `removeVectors`, `enableVectors`) and of the width
parameters declared in `WideVectorDrawableBuilder.h`.

The bindings are stateful C++.  They are embedded as functions from a `World`
(everything the bindings can read or write) to a `Completion` (how the C++
function ended) and the `World` afterwards.  Pointers are `Option Nat`
(`none` is `NULL`), host references are `Option Nat` (`none` is the null
reference).  The Manager itself (`VectorManager::addVectors` and friends) is
not part of these sources: its behaviour is a parameter of every binding.
-/

namespace WhirlyKit

/-! ## Data model -/

/-- Identifiers are opaque 64-bit values, represented by their bit pattern. -/
abbrev SimpleIdentity := Nat

/-- The C++ `std::set<SimpleIdentity>`: a set is determined by its members. -/
abbrev SimpleIDSet := Finset SimpleIdentity

/-- The C++ `ShapeSet`, a `std::set` of shape references compared by identity;
a shape reference is represented by a number. -/
abbrev ShapeSet := Finset Nat

/-- The native `VectorObject`: the bindings only use its `shapes` member. -/
structure VectorObject where
  shapes : ShapeSet
deriving DecidableEq

/-- The native `VectorInfo` (style descriptor), passed through untouched. -/
abbrev VectorInfo := Nat

/-- The native `ChangeSet`: an ordered list of change requests, which are
opaque to the bindings. -/
abbrev ChangeSet := List Nat

/-- A host (Java) reference; `none` is the null reference. -/
abbrev jobject := Option Nat

/-- The class `VecManagerWrapper` (lines 20-30): two raw pointers. -/
structure VecManagerWrapper where
  vecManager : Option Nat
  scene : Option Nat
deriving DecidableEq

/-- What `SceneManager *` points to, as far as `dynamic_cast` can tell. -/
structure SceneManagerRef where
  addr : Nat
  isVectorManager : Bool
deriving DecidableEq

/-- A `MapScene` as the bindings see it: the manager registry read by
`getManager`, and the live content of the scene. -/
structure MapScene where
  getManager : String → Option SceneManagerRef
  drawables : List Nat

/-- The C++ `dynamic_cast<VectorManager *>(...)` of a `SceneManager *`. -/
def dynamic_cast_VectorManager (p : Option SceneManagerRef) : Option Nat :=
  match p with
  | none => none
  | some r => if r.isVectorManager then some r.addr else none

/-- One invocation of a Manager method, with the arguments it received:
the Manager pointer, the set built by the binding, and the change set pointer. -/
inductive ManagerCall where
  | addVectors (mgr : Nat) (shapes : ShapeSet) (vecInfo : VectorInfo) (changeSet : Nat)
  | removeVectors (mgr : Nat) (idSet : SimpleIDSet) (changeSet : Nat)
  | enableVectors (mgr : Nat) (idSet : SimpleIDSet) (enable : Bool) (changeSet : Nat)
deriving DecidableEq

/-- The JNI array-buffer calls made by the bindings. -/
inductive JNICall where
  | GetLongArrayElements
  | ReleaseLongArrayElements (mode : Nat)
deriving DecidableEq

/-- How a C++ binding ended.
* `returned v`: a `return` statement ran (or the end of a `void` function was reached);
* `noReturnValue`: control flowed off the end of a function that must return a value,
  so the caller receives no defined value;
* `fault`: a null or dangling pointer was dereferenced, which `catch (...)` does not catch;
  the state paired with it is the one reached when the fault occurred. -/
inductive Completion (α : Type) where
  | returned (v : α)
  | noReturnValue
  | fault
deriving DecidableEq

/-- What a Manager method did: `outcome = none` means it threw an exception. -/
structure ManagerResult (M α : Type) where
  outcome : Option α
  mgr : M
  changes : ChangeSet

/-- The Manager, whose code is not part of these sources, as a parameter: each
method acts on the Manager's own state `M` and on the change set it is handed. -/
structure VectorManager (M : Type) where
  addVectors : M → ShapeSet → VectorInfo → ChangeSet → ManagerResult M SimpleIdentity
  removeVectors : M → SimpleIDSet → ChangeSet → ManagerResult M Unit
  enableVectors : M → SimpleIDSet → Bool → ChangeSet → ManagerResult M Unit

/-- Everything the bindings can read or write.
* `wrapperHandle`: the native handle stored in each host `VectorManager` object
  (`none` = no handle), an address into `wrappers`;
* `wrappers`: the live `VecManagerWrapper` allocations, `nextAddr` the next address `new` yields,
  `deleted` the addresses passed to `delete`, in order;
* `sceneHandle`, `scenes`: host scene objects and the scenes they designate;
* `vecInfos`, `vecObjs`: the native objects designated by host objects;
* `changeSetHandle`, `changeSetHeap`: host change set objects and the native change sets;
* `managers`: the state of the Manager at each address;
* `calls`: the Manager invocations made so far;
* `jni`: the array-buffer calls made so far;
* `androidLog`: the lines written with `__android_log_print`. -/
structure World (M : Type) where
  wrapperHandle : Nat → Option Nat
  wrappers : Nat → Option VecManagerWrapper
  nextAddr : Nat
  deleted : List Nat
  sceneHandle : Nat → Option Nat
  scenes : Nat → MapScene
  vecInfos : Nat → Option VectorInfo
  vecObjs : Nat → Option VectorObject
  changeSetHandle : Nat → Option Nat
  changeSetHeap : Nat → ChangeSet
  managers : Nat → M
  calls : List ManagerCall
  jni : List JNICall
  androidLog : List String

/-! ## The handle table -/

/-- Modelled from the spec: the template `JavaClassInfo<T>` (`Maply_jni.h`) is not among
the sources.  The binding layer "owns the lifetime pairing between a host-side handle and
a Manager instance": every host object carries one native handle.  `getObject` yields the
native object the handle designates, and null for the null reference or for an object whose
handle is not set. -/
def getObject {α : Type} (table : Nat → Option α) (obj : jobject) : Option α :=
  match obj with
  | none => none
  | some o => table o

/-- Modelled from the spec: `JavaClassInfo<T>::setHandle` (absent from the sources) stores
the native pointer in the host object ("create-on-init"). -/
def setHandle {α : Type} (table : Nat → Option α) (obj : Nat) (cObj : α) : Nat → Option α :=
  Function.update table obj (some cObj)

/-- Modelled from the spec: `JavaClassInfo<T>::clearHandle` (absent from the sources) resets
the handle of the host object, so that a later `getObject` finds nothing ("destroy-on-dispose",
"Manager handle not initialized"). -/
def clearHandle {α : Type} (table : Nat → Option α) (obj : Nat) : Nat → Option α :=
  Function.update table obj none

variable {M : Type}

/-! ## `initialise` and `dispose` (lines 41-73)

`obj` is the receiver of an instance native method, hence never the null reference. -/

/-- The binding `Java_com_mousebirdconsulting_maply_VectorManager_initialise`.
The constant `kWKVectorManager` is declared outside these sources and is a parameter. -/
def initialise (kWKVectorManager : String) (w : World M) (obj : Nat) (sceneObj : jobject) :
    Completion Unit × World M :=
  -- MapScene *scene = MapSceneClassInfo::getClassInfo()->getObject(env,sceneObj);
  match getObject w.sceneHandle sceneObj with
  | none => (.fault, w)            -- scene->getManager(...) through a null pointer
  | some scene =>
    -- dynamic_cast<VectorManager *>(scene->getManager(kWKVectorManager))
    let vecManager := dynamic_cast_VectorManager ((w.scenes scene).getManager kWKVectorManager)
    -- VecManagerWrapper *wrap = new VecManagerWrapper(vecManager,scene);
    let wrap := w.nextAddr
    -- setHandle(env,obj,wrap);
    (.returned (),
      { w with
        wrappers := Function.update w.wrappers wrap (some ⟨vecManager, some scene⟩)
        nextAddr := wrap + 1
        wrapperHandle := setHandle w.wrapperHandle obj wrap })

/-- The binding `Java_com_mousebirdconsulting_maply_VectorManager_dispose`. -/
def dispose (w : World M) (obj : Nat) : Completion Unit × World M :=
  -- VecManagerWrapper *wrap = classInfo->getObject(env,obj);
  match getObject w.wrapperHandle (some obj) with
  | none => (.returned (), w)      -- if (!wrap) return;
  | some wrap =>
    -- classInfo->clearHandle(env,obj);
    let w1 := { w with wrapperHandle := clearHandle w.wrapperHandle obj }
    -- delete wrap;
    match w1.wrappers wrap with
    | none => (.fault, w1)         -- deleting what is not allocated
    | some _ =>
      (.returned (),
        { w1 with
          wrappers := Function.update w1.wrappers wrap none
          deleted := w1.deleted ++ [wrap] })

/-! ## `addVectors` (lines 75-115) -/

/-- The `while` loop of lines 98-104: every listed host object is resolved to its native
`VectorObject` and its shapes are inserted into `shapes`.  `none`: an element resolved to
null and `vecObj->shapes` went through a null pointer. -/
def collectShapes (vecObjs : Nat → Option VectorObject) :
    List jobject → ShapeSet → Option ShapeSet
  | [], shapes => some shapes
  | javaVecObj :: rest, shapes =>
    match getObject vecObjs javaVecObj with
    | none => none
    | some vecObj => collectShapes vecObjs rest (shapes ∪ vecObj.shapes)

/-- The call `vecManager->addVectors(&shapes,*vecInfo,*changeSet)` on the Manager at `p`. -/
def callAddVectors (mgr : VectorManager M) (w : World M) (p : Nat) (shapes : ShapeSet)
    (vecInfo : VectorInfo) (changeSet : Nat) : Option SimpleIdentity × World M :=
  let r := mgr.addVectors (w.managers p) shapes vecInfo (w.changeSetHeap changeSet)
  (r.outcome,
    { w with
      managers := Function.update w.managers p r.mgr
      changeSetHeap := Function.update w.changeSetHeap changeSet r.changes
      calls := w.calls ++ [ManagerCall.addVectors p shapes vecInfo changeSet] })

/-- The binding `Java_com_mousebirdconsulting_maply_VectorManager_addVectors`.
The constant `EmptyIdentity` is declared outside these sources and is a parameter.
`vecObjList` is the sequence the Java iterator of the list yields. -/
def addVectors (EmptyIdentity : SimpleIdentity) (mgr : VectorManager M) (w : World M)
    (obj : Nat) (vecObjList : List jobject) (vecInfoObj changeSetObj : jobject) :
    Completion SimpleIdentity × World M :=
  match getObject w.wrapperHandle (some obj), getObject w.vecInfos vecInfoObj,
      getObject w.changeSetHandle changeSetObj with
  | some wrap, some vecInfo, some changeSet =>
    -- ShapeSet shapes; while (hasNext) { ... shapes.insert(...) }
    match collectShapes w.vecObjs vecObjList ∅ with
    | none => (.fault, w)
    | some shapes =>
      -- wrap->vecManager->addVectors(&shapes,*vecInfo,*changeSet)
      match w.wrappers wrap with
      | none => (.fault, w)          -- wrap is dangling
      | some wrapper =>
        match wrapper.vecManager with
        | none => (.fault, w)        -- member call through a null Manager pointer
        | some p =>
          match callAddVectors mgr w p shapes vecInfo changeSet with
          | (some vecId, w1) => (.returned vecId, w1)     -- return vecId;
          | (none, w1) =>
            -- catch (...) { __android_log_print(...); }  and then the closing brace
            (.noReturnValue,
              { w1 with androidLog := w1.androidLog ++ ["Crash in VectorManager::addVectors()"] })
  -- if (!wrap || !vecInfo || !changeSet) return EmptyIdentity;
  | _, _, _ => (.returned EmptyIdentity, w)

/-! ## `removeVectors` and `enableVectors` (lines 117-173) -/

/-- The loop `for (ii=0;ii<idCount;ii++) idSet.insert(ids[ii]);`. -/
def buildIdSet (ids : List SimpleIdentity) : SimpleIDSet :=
  ids.foldl (fun idSet x => insert x idSet) ∅

/-- The call `vecManager->removeVectors(idSet,*changeSet)` on the Manager at `p`. -/
def callRemoveVectors (mgr : VectorManager M) (w : World M) (p : Nat) (idSet : SimpleIDSet)
    (changeSet : Nat) : Option Unit × World M :=
  let r := mgr.removeVectors (w.managers p) idSet (w.changeSetHeap changeSet)
  (r.outcome,
    { w with
      managers := Function.update w.managers p r.mgr
      changeSetHeap := Function.update w.changeSetHeap changeSet r.changes
      calls := w.calls ++ [ManagerCall.removeVectors p idSet changeSet] })

/-- The call `vecManager->enableVectors(idSet,enable,*changeSet)` on the Manager at `p`. -/
def callEnableVectors (mgr : VectorManager M) (w : World M) (p : Nat) (idSet : SimpleIDSet)
    (enable : Bool) (changeSet : Nat) : Option Unit × World M :=
  let r := mgr.enableVectors (w.managers p) idSet enable (w.changeSetHeap changeSet)
  (r.outcome,
    { w with
      managers := Function.update w.managers p r.mgr
      changeSetHeap := Function.update w.changeSetHeap changeSet r.changes
      calls := w.calls ++ [ManagerCall.enableVectors p idSet enable changeSet] })

/-- The binding `Java_com_mousebirdconsulting_maply_VectorManager_removeVectors`.
`idArrayObj` is the content of the host `long[]`. -/
def removeVectors (mgr : VectorManager M) (w : World M) (obj : Nat)
    (idArrayObj : List SimpleIdentity) (changeSetObj : jobject) : Completion Unit × World M :=
  match getObject w.wrapperHandle (some obj), getObject w.changeSetHandle changeSetObj with
  | some wrap, some changeSet =>
    -- long long *ids = env->GetLongArrayElements(idArrayObj, NULL);
    let w1 := { w with jni := w.jni ++ [JNICall.GetLongArrayElements] }
    -- int idCount = env->GetArrayLength(idArrayObj);
    let idCount := idArrayObj.length
    -- if (idCount == 0) return;
    if idCount = 0 then (.returned (), w1)
    else
      let idSet := buildIdSet idArrayObj
      -- env->ReleaseLongArrayElements(idArrayObj,ids, 0);
      let w2 := { w1 with jni := w1.jni ++ [JNICall.ReleaseLongArrayElements 0] }
      -- wrap->vecManager->removeVectors(idSet,*changeSet);
      match w2.wrappers wrap with
      | none => (.fault, w2)
      | some wrapper =>
        match wrapper.vecManager with
        | none => (.fault, w2)
        | some p =>
          match callRemoveVectors mgr w2 p idSet changeSet with
          | (some _, w3) => (.returned (), w3)
          | (none, w3) =>
            (.returned (),
              { w3 with
                androidLog := w3.androidLog ++ ["Crash in VectorManager::removeVectors()"] })
  -- if (!wrap || !changeSet) return;
  | _, _ => (.returned (), w)

/-- The binding `Java_com_mousebirdconsulting_maply_VectorManager_enableVectors`. -/
def enableVectors (mgr : VectorManager M) (w : World M) (obj : Nat)
    (idArrayObj : List SimpleIdentity) (enable : Bool) (changeSetObj : jobject) :
    Completion Unit × World M :=
  match getObject w.wrapperHandle (some obj), getObject w.changeSetHandle changeSetObj with
  | some wrap, some changeSet =>
    let w1 := { w with jni := w.jni ++ [JNICall.GetLongArrayElements] }
    let idCount := idArrayObj.length
    if idCount = 0 then (.returned (), w1)
    else
      let idSet := buildIdSet idArrayObj
      let w2 := { w1 with jni := w1.jni ++ [JNICall.ReleaseLongArrayElements 0] }
      -- wrap->vecManager->enableVectors(idSet,enable,*changeSet);
      match w2.wrappers wrap with
      | none => (.fault, w2)
      | some wrapper =>
        match wrapper.vecManager with
        | none => (.fault, w2)
        | some p =>
          match callEnableVectors mgr w2 p idSet enable changeSet with
          | (some _, w3) => (.returned (), w3)
          | (none, w3) =>
            (.returned (),
              { w3 with
                androidLog := w3.androidLog ++ ["Crash in VectorManager::enableVectors()"] })
  | _, _ => (.returned (), w)

/-- Whether a JNI call gives an element buffer back. -/
def JNICall.isRelease : JNICall → Bool
  | .ReleaseLongArrayElements _ => true
  | .GetLongArrayElements => false

/-- Number of element buffers obtained with `GetLongArrayElements`. -/
def acquisitions (w : World M) : Nat :=
  w.jni.count JNICall.GetLongArrayElements

/-- Number of element buffers given back with `ReleaseLongArrayElements`. -/
def releases (w : World M) : Nat :=
  (w.jni.filter JNICall.isRelease).length

/-! ## Vocabulary of the frame property -/

/-- The world `w` with another scene table, other host scene handles, and with the `scene`
pointer stored in every live wrapper replaced by `ptr`: everything that is "the scene". -/
def World.withScenes (w : World M) (sceneHandle : Nat → Option Nat) (scenes : Nat → MapScene)
    (ptr : Nat → Option Nat) : World M :=
  { w with
    sceneHandle := sceneHandle
    scenes := scenes
    wrappers := fun a =>
      match w.wrappers a with
      | none => none
      | some wrapper => some { wrapper with scene := ptr a } }

/-- The effect of one Manager invocation and of nothing else: in `w`, the Manager at `p` is
left in state `mgrAfter`, the change set at `changeSet` holds `changes`, and `call` is
appended to the invocations; every other component is the one of `w`. -/
def managerInvocationEffect (w : World M) (p : Nat) (mgrAfter : M) (changeSet : Nat)
    (changes : ChangeSet) (call : ManagerCall) : World M :=
  { w with
    managers := Function.update w.managers p mgrAfter
    changeSetHeap := Function.update w.changeSetHeap changeSet changes
    calls := w.calls ++ [call] }

/-! ## Sample inputs, used to run the bindings on concrete values -/

/-- A Manager whose state is a counter: `addVectors` hands out the next number and every
method appends one request to the change set. -/
def sampleManager : VectorManager Nat where
  addVectors := fun m shapes _ changes => ⟨some (m + 1), m + 1, changes ++ [shapes.card]⟩
  removeVectors := fun m idSet changes => ⟨some (), m, changes ++ [idSet.card]⟩
  enableVectors := fun m idSet _ changes => ⟨some (), m, changes ++ [idSet.card]⟩

/-- A Manager every method of which throws. -/
def throwingManager : VectorManager Nat where
  addVectors := fun m _ _ changes => ⟨none, m, changes⟩
  removeVectors := fun m _ changes => ⟨none, m, changes⟩
  enableVectors := fun m _ _ changes => ⟨none, m, changes⟩

/-- A scene that has a vector manager at address 7. -/
def sceneWithManager : MapScene where
  getManager := fun _ => some ⟨7, true⟩
  drawables := []

/-- A scene without any manager. -/
def sceneWithoutManager : MapScene where
  getManager := fun _ => none
  drawables := []

/-- A world with one initialised host vector manager (object 1, wrapper at 100, Manager 7),
host scenes 2 (with a vector manager) and 3 (without), a vector info (object 4), a change
set (object 5, at 200) and two vector objects (10 and 11) sharing shape 2. -/
def sampleWorld : World Nat where
  wrapperHandle := fun o => if o = 1 then some 100 else none
  wrappers := fun a => if a = 100 then some ⟨some 7, some 50⟩ else none
  nextAddr := 101
  deleted := []
  sceneHandle := fun o => if o = 2 then some 50 else if o = 3 then some 51 else none
  scenes := fun a => if a = 50 then sceneWithManager else sceneWithoutManager
  vecInfos := fun o => if o = 4 then some 9 else none
  vecObjs := fun o =>
    if o = 10 then some ⟨{1, 2}⟩ else if o = 11 then some ⟨{2, 3}⟩ else none
  changeSetHandle := fun o => if o = 5 then some 200 else none
  changeSetHeap := fun _ => []
  managers := fun _ => 0
  calls := []
  jni := []
  androidLog := []

/-- The sample world after host object 6 was initialised on host scene 3, the scene without
a vector manager. -/
def worldWithoutManager : World Nat :=
  (initialise "WKVectorManager" sampleWorld 6 (some 3)).2

/-! ## Wide vectors: the width parameters (`WideVectorDrawableBuilder.h`)

Widths are `float`/`double` in the source; only the choice between them is modelled, over
the rationals. -/

/-- A width expression: a function from the render-time scalar to a width.  The type
`FloatExpressionInfo` is declared outside these sources. -/
structure FloatExpressionInfo where
  evaluate : Rat → Rat

/-- The C++ `FloatExpressionInfoRef`, a shared pointer: `none` is the empty pointer. -/
abbrev FloatExpressionInfoRef := Option FloatExpressionInfo

/-- The data members of the abstract class `WideVectorTweaker` (lines 30-42). -/
structure WideVectorTweaker where
  realWidthSet : Bool
  realWidth : Rat
  edgeSize : Rat
  lineWidth : Rat
  texRepeat : Rat
  color : Nat

/-- The protected data members of `WideVectorDrawableBuilder` (lines 97-110). -/
structure WideVectorDrawableBuilder where
  lineWidth : Rat
  color : Nat
  globeMode : Bool
  realWidthSet : Bool
  realWidth : Rat
  snapTex : Bool
  texRepeat : Rat
  edgeSize : Rat
  p1_index : Int
  n0_index : Int
  c0_index : Int
  tex_index : Int
  widthExp : FloatExpressionInfoRef

/-- Modelled from the spec: `setLineWidth` is only declared in the header; it sets the fixed
logical width. -/
def WideVectorDrawableBuilder.setLineWidth (b : WideVectorDrawableBuilder) (inWidth : Rat) :
    WideVectorDrawableBuilder :=
  { b with lineWidth := inWidth }

/-- Modelled from the spec: `setRealWorldWidth` is only declared in the header ("Fix the
width to a real world value"); it sets the optional real-world width. -/
def WideVectorDrawableBuilder.setRealWorldWidth (b : WideVectorDrawableBuilder) (width : Rat) :
    WideVectorDrawableBuilder :=
  { b with realWidthSet := true, realWidth := width }

/-- Modelled from the spec: `setWidthExpression` is only declared in the header ("Apply a
width expression"); it sets the optional width expression. -/
def WideVectorDrawableBuilder.setWidthExpression (b : WideVectorDrawableBuilder)
    (widthExp : FloatExpressionInfoRef) : WideVectorDrawableBuilder :=
  { b with widthExp := widthExp }

/-- Modelled from the spec: the concrete tweaker returned by `makeTweaker`, which is pure
virtual in the header.  Besides the members of `WideVectorTweaker` it holds the optional
width expression of the style ("a small struct holding the style parameters needed for
width resolution"). -/
structure ResolvingTweaker extends WideVectorTweaker where
  widthExp : FloatExpressionInfoRef

/-- Modelled from the spec: `setupTweaker` is only declared in the header ("The tweaker sets
up uniforms before a given drawable draws"); the tweaker receives the style parameters of
the builder. -/
def WideVectorDrawableBuilder.setupTweaker (b : WideVectorDrawableBuilder) : ResolvingTweaker where
  realWidthSet := b.realWidthSet
  realWidth := b.realWidth
  edgeSize := b.edgeSize
  lineWidth := b.lineWidth
  texRepeat := b.texRepeat
  color := b.color
  widthExp := b.widthExp

/-- Modelled from the spec: what the renderer supplies each frame, "the current render-time
scalar (zoom/projection scale)".  `RendererFrameInfo` is declared outside these sources. -/
structure RendererFrameInfo where
  scalar : Rat
  projectionScale : Rat

/-- The three width parameters of a style. -/
inductive WidthSource where
  | widthExpression
  | realWorldWidth
  | fixedLineWidth
deriving DecidableEq

/-- Modelled from the spec: which width parameter is authoritative, "precedence: width
expression > real-world width > fixed logical width". -/
def ResolvingTweaker.authoritative (t : ResolvingTweaker) : WidthSource :=
  match t.widthExp with
  | some _ => .widthExpression
  | none => if t.realWidthSet then .realWorldWidth else .fixedLineWidth

/-- Modelled from the spec: the width resolution of `tweakForFrame`, which is pure virtual in
the header: "if a width expression is set, evaluate it against the current render-time
scalar and use the result; else if a real-world width is set, convert it to local units
using the current projection scale; else use the fixed logical width".  The conversion
`toLocal` (projection scale, real-world width) is a parameter. -/
def ResolvingTweaker.resolveWidth (toLocal : Rat → Rat → Rat) (t : ResolvingTweaker)
    (frameInfo : RendererFrameInfo) : Rat :=
  match t.widthExp with
  | some widthExp => widthExp.evaluate frameInfo.scalar
  | none =>
    if t.realWidthSet then toLocal frameInfo.projectionScale t.realWidth
    else t.lineWidth

/-- A builder with nothing set. -/
def sampleBuilder : WideVectorDrawableBuilder where
  lineWidth := 4
  color := 0
  globeMode := false
  realWidthSet := false
  realWidth := 0
  snapTex := false
  texRepeat := 10
  edgeSize := 2
  p1_index := -1
  n0_index := -1
  c0_index := -1
  tex_index := -1
  widthExp := none

/-! ## Missing collaborators -/

/-- C1: when the wrapper handle of the host object, the vector info or the change set
resolves to null, `addVectors` returns `EmptyIdentity` and hands back the world it was
given: no Manager call is recorded and no change set is touched. -/
theorem addVectors_missing_collaborator (EmptyIdentity : SimpleIdentity)
    (mgr : VectorManager M) (w : World M) (obj : Nat) (vecObjList : List jobject)
    (vecInfoObj changeSetObj : jobject)
    (h : getObject w.wrapperHandle (some obj) = none ∨
      getObject w.vecInfos vecInfoObj = none ∨
      getObject w.changeSetHandle changeSetObj = none) :
    addVectors EmptyIdentity mgr w obj vecObjList vecInfoObj changeSetObj
        = (Completion.returned EmptyIdentity, w) ∧
      (addVectors EmptyIdentity mgr w obj vecObjList vecInfoObj changeSetObj).2.calls
        = w.calls ∧
      (addVectors EmptyIdentity mgr w obj vecObjList vecInfoObj changeSetObj).2.changeSetHeap
        = w.changeSetHeap := by
  have key : addVectors EmptyIdentity mgr w obj vecObjList vecInfoObj changeSetObj
      = (Completion.returned EmptyIdentity, w) := by
    unfold addVectors
    split
    · next h1 h2 h3 =>
      rw [h1, h2, h3] at h
      simp at h
    · rfl
  rw [key]
  exact ⟨rfl, rfl, rfl⟩

/-- Witness of C1: host object 9 of the sample world has no wrapper. -/
theorem addVectors_missing_collaborator_witness :
    addVectors 0 sampleManager sampleWorld 9 [some 10] (some 4) (some 5)
        = (Completion.returned 0, sampleWorld) ∧
      (addVectors 0 sampleManager sampleWorld 9 [some 10] (some 4) (some 5)).2.calls
        = sampleWorld.calls ∧
      (addVectors 0 sampleManager sampleWorld 9 [some 10] (some 4) (some 5)).2.changeSetHeap
        = sampleWorld.changeSetHeap :=
  addVectors_missing_collaborator 0 sampleManager sampleWorld 9 [some 10] (some 4) (some 5)
    (Or.inl rfl)

/-- C2: when the wrapper handle of the host object or the change set resolves to null,
`removeVectors` and `enableVectors` return at once with the world they were given: no
Manager call is recorded and no change set is touched. -/
theorem removeVectors_enableVectors_missing_collaborator (mgr : VectorManager M)
    (w : World M) (obj : Nat) (idArrayObj : List SimpleIdentity) (enable : Bool)
    (changeSetObj : jobject)
    (h : getObject w.wrapperHandle (some obj) = none ∨
      getObject w.changeSetHandle changeSetObj = none) :
    removeVectors mgr w obj idArrayObj changeSetObj = (Completion.returned (), w) ∧
      enableVectors mgr w obj idArrayObj enable changeSetObj = (Completion.returned (), w) := by
  unfold removeVectors enableVectors
  constructor <;>
  · split
    · next h1 h2 =>
      rw [h1, h2] at h
      simp at h
    · rfl

/-- Witness of C2: the change set argument is the null reference. -/
theorem removeVectors_enableVectors_missing_collaborator_witness :
    removeVectors sampleManager sampleWorld 1 [3, 5] none
        = (Completion.returned (), sampleWorld) ∧
      enableVectors sampleManager sampleWorld 1 [3, 5] true none
        = (Completion.returned (), sampleWorld) :=
  removeVectors_enableVectors_missing_collaborator sampleManager sampleWorld 1 [3, 5] true none
    (Or.inr rfl)

/-! ## A wrapper without Manager -/

/-- Past the collaborator check, a wrapper whose `vecManager` is null makes `addVectors`
call a member function through the null pointer. -/
theorem addVectors_null_manager (EmptyIdentity : SimpleIdentity) (mgr : VectorManager M)
    (w : World M) (obj : Nat) (vecObjList : List jobject) (vecInfoObj changeSetObj : jobject)
    (wrap : Nat) (wrapper : VecManagerWrapper) (vecInfo : VectorInfo) (changeSet : Nat)
    (shapes : ShapeSet)
    (hw : getObject w.wrapperHandle (some obj) = some wrap)
    (hi : getObject w.vecInfos vecInfoObj = some vecInfo)
    (hc : getObject w.changeSetHandle changeSetObj = some changeSet)
    (hs : collectShapes w.vecObjs vecObjList ∅ = some shapes)
    (hwr : w.wrappers wrap = some wrapper) (hm : wrapper.vecManager = none) :
    addVectors EmptyIdentity mgr w obj vecObjList vecInfoObj changeSetObj
      = (Completion.fault, w) := by
  unfold addVectors
  rw [hw, hi, hc]
  simp only [hs, hwr, hm]

/-- On a scene without vector manager `initialise` returns normally and leaves the host
object with a wrapper whose `vecManager` is null. -/
theorem initialise_without_manager (kWKVectorManager : String) (w : World M) (obj : Nat)
    (sceneObj : jobject) (scene : Nat)
    (hs : getObject w.sceneHandle sceneObj = some scene)
    (hm : dynamic_cast_VectorManager ((w.scenes scene).getManager kWKVectorManager) = none) :
    (initialise kWKVectorManager w obj sceneObj).1 = Completion.returned () ∧
      getObject (initialise kWKVectorManager w obj sceneObj).2.wrapperHandle (some obj)
        = some w.nextAddr ∧
      (initialise kWKVectorManager w obj sceneObj).2.wrappers w.nextAddr
        = some ⟨none, some scene⟩ := by
  unfold initialise
  simp only [hs, hm]
  simp [getObject, setHandle]

/-- C3, the code at a failing input: host object 6 is initialised on a scene that has no
vector manager, so its wrapper holds a null `vecManager`.  `initialise` returns normally,
and then `addVectors` (even on an empty list), `removeVectors` and `enableVectors` (on a
non-empty array) pass the collaborator check and reach the call through the null Manager
pointer; none of them returns. -/
theorem bindings_dereference_null_manager :
    (initialise "WKVectorManager" sampleWorld 6 (some 3)).1 = Completion.returned () ∧
      worldWithoutManager.wrapperHandle 6 = some 101 ∧
      worldWithoutManager.wrappers 101 = some ⟨none, some 51⟩ ∧
      (addVectors 0 sampleManager worldWithoutManager 6 [] (some 4) (some 5)).1
        = Completion.fault ∧
      (removeVectors sampleManager worldWithoutManager 6 [3] (some 5)).1
        = Completion.fault ∧
      (enableVectors sampleManager worldWithoutManager 6 [3] true (some 5)).1
        = Completion.fault := by
  decide

/-! ## An exception past the collaborator check -/

/-- Whenever the Manager throws, `addVectors` logs in its handler and then reaches the end
of the function without a `return`. -/
theorem addVectors_manager_throws (EmptyIdentity : SimpleIdentity) (mgr : VectorManager M)
    (w : World M) (obj : Nat) (vecObjList : List jobject) (vecInfoObj changeSetObj : jobject)
    (wrap : Nat) (wrapper : VecManagerWrapper) (p : Nat) (vecInfo : VectorInfo)
    (changeSet : Nat) (shapes : ShapeSet)
    (hw : getObject w.wrapperHandle (some obj) = some wrap)
    (hi : getObject w.vecInfos vecInfoObj = some vecInfo)
    (hc : getObject w.changeSetHandle changeSetObj = some changeSet)
    (hs : collectShapes w.vecObjs vecObjList ∅ = some shapes)
    (hwr : w.wrappers wrap = some wrapper) (hm : wrapper.vecManager = some p)
    (hthrow : (mgr.addVectors (w.managers p) shapes vecInfo
      (w.changeSetHeap changeSet)).outcome = none) :
    (addVectors EmptyIdentity mgr w obj vecObjList vecInfoObj changeSetObj).1
      = Completion.noReturnValue := by
  unfold addVectors
  rw [hw, hi, hc]
  simp only [hs, hwr, hm, callAddVectors, hthrow]

/-- C4, the code at a failing input: all collaborators are present and the Manager throws
inside `addVectors`.  The handler writes its log line; the function then ends without a
`return` statement, so it does not return `EmptyIdentity` (here 0). -/
theorem addVectors_exception_has_no_return_value :
    (addVectors 0 throwingManager sampleWorld 1 [some 10] (some 4) (some 5)).1
        = Completion.noReturnValue ∧
      (addVectors 0 throwingManager sampleWorld 1 [some 10] (some 4) (some 5)).1
        ≠ Completion.returned 0 ∧
      (addVectors 0 throwingManager sampleWorld 1 [some 10] (some 4) (some 5)).2.androidLog
        = ["Crash in VectorManager::addVectors()"] := by
  decide

/-! ## The element buffer -/

/-- On an empty identifier array, past the collaborator check, `removeVectors` and
`enableVectors` obtain the element buffer and return without giving it back. -/
theorem empty_array_keeps_buffer (mgr : VectorManager M) (w : World M) (obj : Nat)
    (enable : Bool) (changeSetObj : jobject) (wrap changeSet : Nat)
    (hw : getObject w.wrapperHandle (some obj) = some wrap)
    (hc : getObject w.changeSetHandle changeSetObj = some changeSet) :
    removeVectors mgr w obj [] changeSetObj
        = (Completion.returned (), { w with jni := w.jni ++ [JNICall.GetLongArrayElements] }) ∧
      enableVectors mgr w obj [] enable changeSetObj
        = (Completion.returned (), { w with jni := w.jni ++ [JNICall.GetLongArrayElements] }) := by
  unfold removeVectors enableVectors
  rw [hw, hc]
  exact ⟨rfl, rfl⟩

/-- C10, the code at a failing input: wrapper and change set are present and the identifier
array is empty.  Both bindings return normally after one `GetLongArrayElements` and no
`ReleaseLongArrayElements`; on a non-empty array the same bindings do release. -/
theorem empty_array_buffer_not_released :
    (removeVectors sampleManager sampleWorld 1 [] (some 5)).1 = Completion.returned () ∧
      acquisitions (removeVectors sampleManager sampleWorld 1 [] (some 5)).2 = 1 ∧
      releases (removeVectors sampleManager sampleWorld 1 [] (some 5)).2 = 0 ∧
      (enableVectors sampleManager sampleWorld 1 [] true (some 5)).1 = Completion.returned () ∧
      acquisitions (enableVectors sampleManager sampleWorld 1 [] true (some 5)).2 = 1 ∧
      releases (enableVectors sampleManager sampleWorld 1 [] true (some 5)).2 = 0 ∧
      acquisitions (removeVectors sampleManager sampleWorld 1 [3] (some 5)).2 = 1 ∧
      releases (removeVectors sampleManager sampleWorld 1 [3] (some 5)).2 = 1 := by
  decide

/-! ## `dispose` -/

/-- Without a handle `dispose` returns at once. -/
theorem dispose_no_handle (w : World M) (obj : Nat) (h : w.wrapperHandle obj = none) :
    dispose w obj = (Completion.returned (), w) := by
  unfold dispose getObject
  simp only [h]

/-- After `dispose` the host object has no handle, however the call ended. -/
theorem dispose_clears_handle (w : World M) (obj : Nat) :
    (dispose w obj).2.wrapperHandle obj = none := by
  unfold dispose getObject
  cases h : w.wrapperHandle obj with
  | none => simp only [h]
  | some wrap =>
    cases h1 : w.wrappers wrap <;> simp [h, h1, clearHandle]

/-- C5: `dispose` is double-dispose-safe.  For every world and host object,
(1) a second `dispose` right after a first one returns normally and leaves the state of the
first untouched (nothing deleted, nothing cleared);
(2) on an object without handle (never initialised) `dispose` is a no-op;
(3) on an object whose handle designates a live wrapper, `dispose` clears the handle, frees
the wrapper and records exactly one `delete`, of that wrapper;
(4) in particular this is what happens to the wrapper `initialise` has just created. -/
theorem dispose_double_dispose_safe (w : World M) (obj : Nat) :
    dispose (dispose w obj).2 obj = (Completion.returned (), (dispose w obj).2) ∧
      (w.wrapperHandle obj = none → dispose w obj = (Completion.returned (), w)) ∧
      (∀ wrap wrapper, w.wrapperHandle obj = some wrap → w.wrappers wrap = some wrapper →
        dispose w obj = (Completion.returned (),
          { w with
            wrapperHandle := clearHandle w.wrapperHandle obj
            wrappers := Function.update w.wrappers wrap none
            deleted := w.deleted ++ [wrap] })) ∧
      (∀ (kWKVectorManager : String) (sceneObj : jobject) (scene : Nat),
        getObject w.sceneHandle sceneObj = some scene →
        (dispose (initialise kWKVectorManager w obj sceneObj).2 obj).1
            = Completion.returned () ∧
          (dispose (initialise kWKVectorManager w obj sceneObj).2 obj).2.deleted
            = w.deleted ++ [w.nextAddr] ∧
          (dispose (initialise kWKVectorManager w obj sceneObj).2 obj).2.wrapperHandle obj
            = none ∧
          (dispose (initialise kWKVectorManager w obj sceneObj).2 obj).2.wrappers w.nextAddr
            = none) := by
  refine ⟨dispose_no_handle _ _ (dispose_clears_handle w obj), dispose_no_handle w obj, ?_, ?_⟩
  · intro wrap wrapper h1 h2
    unfold dispose getObject
    simp only [h1, h2]
  · intro k sceneObj scene h
    unfold initialise
    simp only [h]
    unfold dispose getObject
    simp [setHandle, clearHandle]

/-- Witness of C5 on the sample world: object 1 holds the wrapper at 100, object 9 was never
initialised, object 6 is initialised on host scene 2 and disposed. -/
theorem dispose_double_dispose_safe_witness :
    dispose (dispose sampleWorld 1).2 1 = (Completion.returned (), (dispose sampleWorld 1).2) ∧
      dispose sampleWorld 9 = (Completion.returned (), sampleWorld) ∧
      dispose sampleWorld 1 = (Completion.returned (),
        { sampleWorld with
          wrapperHandle := clearHandle sampleWorld.wrapperHandle 1
          wrappers := Function.update sampleWorld.wrappers 100 none
          deleted := sampleWorld.deleted ++ [100] }) ∧
      (dispose (initialise "WKVectorManager" sampleWorld 6 (some 2)).2 6).2.deleted
        = sampleWorld.deleted ++ [sampleWorld.nextAddr] :=
  ⟨(dispose_double_dispose_safe sampleWorld 1).1,
    (dispose_double_dispose_safe sampleWorld 9).2.1 rfl,
    (dispose_double_dispose_safe sampleWorld 1).2.2.1 100 ⟨some 7, some 50⟩ rfl rfl,
    ((dispose_double_dispose_safe sampleWorld 6).2.2.2 "WKVectorManager" (some 2) 50 rfl).2.1⟩

/-! ## What the Manager receives -/

/-- The loop of `addVectors` succeeds when every element resolves, and then yields the
accumulator united with the shapes of all listed vector objects. -/
theorem collectShapes_spec (vecObjs : Nat → Option VectorObject) (l : List jobject) :
    ∀ acc : ShapeSet, (∀ o ∈ l, ∃ v, getObject vecObjs o = some v) →
      ∃ shapes, collectShapes vecObjs l acc = some shapes ∧
        ∀ s, s ∈ shapes ↔
          s ∈ acc ∨ ∃ o ∈ l, ∃ v, getObject vecObjs o = some v ∧ s ∈ v.shapes := by
  induction l with
  | nil =>
    intro acc _
    exact ⟨acc, rfl, by simp⟩
  | cons o rest ih =>
    intro acc h
    obtain ⟨v, hv⟩ := h o (List.mem_cons_self o rest)
    obtain ⟨shapes, hs, hmem⟩ :=
      ih (acc ∪ v.shapes) (fun o1 ho1 => h o1 (List.mem_cons_of_mem o ho1))
    refine ⟨shapes, by simp only [collectShapes, hv, hs], ?_⟩
    intro s
    rw [hmem s, Finset.mem_union]
    constructor
    · rintro ((h1 | h1) | ⟨o1, ho1, v1, hv1, hs1⟩)
      · exact Or.inl h1
      · exact Or.inr ⟨o, List.mem_cons_self o rest, v, hv, h1⟩
      · exact Or.inr ⟨o1, List.mem_cons_of_mem o ho1, v1, hv1, hs1⟩
    · rintro (h1 | ⟨o1, ho1, v1, hv1, hs1⟩)
      · exact Or.inl (Or.inl h1)
      · rcases List.mem_cons.mp ho1 with heq | hin
        · subst heq
          rw [hv] at hv1
          cases hv1
          exact Or.inl (Or.inr hs1)
        · exact Or.inr ⟨o1, hin, v1, hv1, hs1⟩

/-- The insertion loop of `removeVectors`/`enableVectors`, started from any set. -/
theorem foldl_insert_mem (ids : List SimpleIdentity) :
    ∀ (acc : SimpleIDSet) (x : SimpleIdentity),
      x ∈ ids.foldl (fun idSet y => insert y idSet) acc ↔ x ∈ acc ∨ x ∈ ids := by
  induction ids with
  | nil => intro acc x; simp
  | cons y rest ih =>
    intro acc x
    rw [List.foldl_cons, ih, Finset.mem_insert, List.mem_cons]
    tauto

/-- The identifier set built from the array holds exactly the values of the array. -/
theorem buildIdSet_mem (ids : List SimpleIdentity) (x : SimpleIdentity) :
    x ∈ buildIdSet ids ↔ x ∈ ids := by
  unfold buildIdSet
  rw [foldl_insert_mem]
  simp

/-- C6, amended: when the wrapper handle designates a live wrapper that holds a Manager,
the vector info and the change set are present, and every listed object resolves to a
vector object, `addVectors` makes exactly one Manager call, `addVectors` on the wrapper's
Manager with the given vector info and change set and with a `ShapeSet` whose members are
exactly the shapes of the listed vector objects (the empty set for the empty list: no
short-circuit).  The Manager runs on its own state and on the content of that change set;
both are stored back as the Manager left them.  When the Manager returns an identifier the
binding returns exactly that identifier, and the state is then the one before the call
plus that single invocation. -/
theorem addVectors_calls_manager_once (EmptyIdentity : SimpleIdentity)
    (mgr : VectorManager M) (w : World M) (obj : Nat) (vecObjList : List jobject)
    (vecInfoObj changeSetObj : jobject) (wrap : Nat) (wrapper : VecManagerWrapper) (p : Nat)
    (vecInfo : VectorInfo) (changeSet : Nat)
    (hw : getObject w.wrapperHandle (some obj) = some wrap)
    (hwr : w.wrappers wrap = some wrapper) (hm : wrapper.vecManager = some p)
    (hi : getObject w.vecInfos vecInfoObj = some vecInfo)
    (hc : getObject w.changeSetHandle changeSetObj = some changeSet)
    (hl : ∀ o ∈ vecObjList, ∃ v, getObject w.vecObjs o = some v) :
    ∃ shapes : ShapeSet,
      (∀ s, s ∈ shapes ↔
        ∃ o ∈ vecObjList, ∃ v, getObject w.vecObjs o = some v ∧ s ∈ v.shapes) ∧
      (vecObjList = [] → shapes = ∅) ∧
      (addVectors EmptyIdentity mgr w obj vecObjList vecInfoObj changeSetObj).2.calls
        = w.calls ++ [ManagerCall.addVectors p shapes vecInfo changeSet] ∧
      (addVectors EmptyIdentity mgr w obj vecObjList vecInfoObj changeSetObj).2.managers
        = Function.update w.managers p
            (mgr.addVectors (w.managers p) shapes vecInfo (w.changeSetHeap changeSet)).mgr ∧
      (addVectors EmptyIdentity mgr w obj vecObjList vecInfoObj changeSetObj).2.changeSetHeap
        = Function.update w.changeSetHeap changeSet
            (mgr.addVectors (w.managers p) shapes vecInfo (w.changeSetHeap changeSet)).changes ∧
      (∀ vecId,
        (mgr.addVectors (w.managers p) shapes vecInfo (w.changeSetHeap changeSet)).outcome
          = some vecId →
        addVectors EmptyIdentity mgr w obj vecObjList vecInfoObj changeSetObj
          = (Completion.returned vecId,
              { w with
                managers := Function.update w.managers p
                  (mgr.addVectors (w.managers p) shapes vecInfo
                    (w.changeSetHeap changeSet)).mgr
                changeSetHeap := Function.update w.changeSetHeap changeSet
                  (mgr.addVectors (w.managers p) shapes vecInfo
                    (w.changeSetHeap changeSet)).changes
                calls := w.calls ++ [ManagerCall.addVectors p shapes vecInfo changeSet] })) := by
  obtain ⟨shapes, hs, hmem⟩ := collectShapes_spec w.vecObjs vecObjList ∅ hl
  refine ⟨shapes, ?_, ?_, ?_, ?_, ?_, ?_⟩
  · intro s
    rw [hmem s]
    simp
  · intro hnil
    subst hnil
    simp only [collectShapes, Option.some.injEq] at hs
    exact hs.symm
  · unfold addVectors
    rw [hw, hi, hc]
    simp only [hs, hwr, hm, callAddVectors]
    cases (mgr.addVectors (w.managers p) shapes vecInfo (w.changeSetHeap changeSet)).outcome
      <;> rfl
  · unfold addVectors
    rw [hw, hi, hc]
    simp only [hs, hwr, hm, callAddVectors]
    cases (mgr.addVectors (w.managers p) shapes vecInfo (w.changeSetHeap changeSet)).outcome
      <;> rfl
  · unfold addVectors
    rw [hw, hi, hc]
    simp only [hs, hwr, hm, callAddVectors]
    cases (mgr.addVectors (w.managers p) shapes vecInfo (w.changeSetHeap changeSet)).outcome
      <;> rfl
  · intro vecId hid
    unfold addVectors
    rw [hw, hi, hc]
    simp only [hs, hwr, hm, callAddVectors, hid]

/-- Witness of the amended C6 on the sample world: the two listed vector objects share
shape 2; the Manager at 7 is called once with the three distinct shapes, its state and the
change set at 200 are stored back, and its identifier is returned. -/
theorem addVectors_calls_manager_once_witness :
    ∃ shapes : ShapeSet,
      (∀ s, s ∈ shapes ↔
        ∃ o ∈ [some 10, some 11], ∃ v,
          getObject sampleWorld.vecObjs o = some v ∧ s ∈ v.shapes) ∧
      ([some 10, some 11] = ([] : List jobject) → shapes = ∅) ∧
      (addVectors 0 sampleManager sampleWorld 1 [some 10, some 11] (some 4) (some 5)).2.calls
        = sampleWorld.calls ++ [ManagerCall.addVectors 7 shapes 9 200] ∧
      (addVectors 0 sampleManager sampleWorld 1 [some 10, some 11] (some 4)
          (some 5)).2.managers
        = Function.update sampleWorld.managers 7
            (sampleManager.addVectors (sampleWorld.managers 7) shapes 9
              (sampleWorld.changeSetHeap 200)).mgr ∧
      (addVectors 0 sampleManager sampleWorld 1 [some 10, some 11] (some 4)
          (some 5)).2.changeSetHeap
        = Function.update sampleWorld.changeSetHeap 200
            (sampleManager.addVectors (sampleWorld.managers 7) shapes 9
              (sampleWorld.changeSetHeap 200)).changes ∧
      (∀ vecId,
        (sampleManager.addVectors (sampleWorld.managers 7) shapes 9
          (sampleWorld.changeSetHeap 200)).outcome = some vecId →
        addVectors 0 sampleManager sampleWorld 1 [some 10, some 11] (some 4) (some 5)
          = (Completion.returned vecId,
              { sampleWorld with
                managers := Function.update sampleWorld.managers 7
                  (sampleManager.addVectors (sampleWorld.managers 7) shapes 9
                    (sampleWorld.changeSetHeap 200)).mgr
                changeSetHeap := Function.update sampleWorld.changeSetHeap 200
                  (sampleManager.addVectors (sampleWorld.managers 7) shapes 9
                    (sampleWorld.changeSetHeap 200)).changes
                calls := sampleWorld.calls ++ [ManagerCall.addVectors 7 shapes 9 200] })) :=
  addVectors_calls_manager_once 0 sampleManager sampleWorld 1 [some 10, some 11] (some 4)
    (some 5) 100 ⟨some 7, some 50⟩ 7 9 200 rfl rfl rfl rfl rfl
    (by
      intro o ho
      simp only [List.mem_cons, List.mem_singleton, List.not_mem_nil, or_false] at ho
      rcases ho with h | h <;> subst h
      · exact ⟨⟨{1, 2}⟩, rfl⟩
      · exact ⟨⟨{2, 3}⟩, rfl⟩)

/-- Counterexample to C6 as stated: host object 6 holds a wrapper made by `initialise` on a
scene without vector manager.  Its wrapper handle, the vector info and the change set all
resolve to non-null, every listed object is a vector object, and yet `addVectors` does not
return and no Manager call is made. -/
theorem addVectors_collaborators_present_without_call :
    getObject worldWithoutManager.wrapperHandle (some 6) ≠ none ∧
      getObject worldWithoutManager.vecInfos (some 4) ≠ none ∧
      getObject worldWithoutManager.changeSetHandle (some 5) ≠ none ∧
      (∀ o ∈ [some 10, some 11], (getObject worldWithoutManager.vecObjs o).isSome = true) ∧
      (addVectors 0 sampleManager worldWithoutManager 6 [some 10, some 11] (some 4)
        (some 5)).1 = Completion.fault ∧
      ¬ ∃ call,
        (addVectors 0 sampleManager worldWithoutManager 6 [some 10, some 11] (some 4)
          (some 5)).2.calls = worldWithoutManager.calls ++ [call] := by
  refine ⟨by decide, by decide, by decide, by decide, by decide, ?_⟩
  rintro ⟨call, h⟩
  have h1 : (addVectors 0 sampleManager worldWithoutManager 6 [some 10, some 11] (some 4)
      (some 5)).2.calls = [] := by decide
  rw [h1] at h
  simp at h

/-- C7, amended: when the wrapper handle designates a live wrapper that holds a Manager and
the change set is present, then for every non-empty identifier array `removeVectors` makes
exactly one Manager call, `removeVectors` on the wrapper's Manager with the given change
set, and `enableVectors` makes exactly one Manager call, `enableVectors` with the caller's
flag.  The identifier set handed over has exactly the values of the array as members: no
identifier is filtered out, and arrays with the same values (in any order, with any
repetition) give the same set.  Both bindings return normally; the Manager's state and the
change set are stored back as the Manager left them. -/
theorem removeVectors_enableVectors_call_manager_once (mgr : VectorManager M) (w : World M)
    (obj : Nat) (idArrayObj : List SimpleIdentity) (enable : Bool) (changeSetObj : jobject)
    (wrap : Nat) (wrapper : VecManagerWrapper) (p : Nat) (changeSet : Nat)
    (hne : idArrayObj ≠ [])
    (hw : getObject w.wrapperHandle (some obj) = some wrap)
    (hwr : w.wrappers wrap = some wrapper) (hm : wrapper.vecManager = some p)
    (hc : getObject w.changeSetHandle changeSetObj = some changeSet) :
    ∃ idSet : SimpleIDSet,
      (∀ x, x ∈ idSet ↔ x ∈ idArrayObj) ∧
      (∀ other : List SimpleIdentity, (∀ x, x ∈ other ↔ x ∈ idArrayObj) →
        buildIdSet other = idSet) ∧
      (removeVectors mgr w obj idArrayObj changeSetObj).2.calls
        = w.calls ++ [ManagerCall.removeVectors p idSet changeSet] ∧
      (enableVectors mgr w obj idArrayObj enable changeSetObj).2.calls
        = w.calls ++ [ManagerCall.enableVectors p idSet enable changeSet] ∧
      (removeVectors mgr w obj idArrayObj changeSetObj).1 = Completion.returned () ∧
      (enableVectors mgr w obj idArrayObj enable changeSetObj).1 = Completion.returned () ∧
      (removeVectors mgr w obj idArrayObj changeSetObj).2.managers
        = Function.update w.managers p
            (mgr.removeVectors (w.managers p) idSet (w.changeSetHeap changeSet)).mgr ∧
      (enableVectors mgr w obj idArrayObj enable changeSetObj).2.managers
        = Function.update w.managers p
            (mgr.enableVectors (w.managers p) idSet enable (w.changeSetHeap changeSet)).mgr ∧
      (removeVectors mgr w obj idArrayObj changeSetObj).2.changeSetHeap
        = Function.update w.changeSetHeap changeSet
            (mgr.removeVectors (w.managers p) idSet (w.changeSetHeap changeSet)).changes ∧
      (enableVectors mgr w obj idArrayObj enable changeSetObj).2.changeSetHeap
        = Function.update w.changeSetHeap changeSet
            (mgr.enableVectors (w.managers p) idSet enable
              (w.changeSetHeap changeSet)).changes := by
  have hlen : idArrayObj.length ≠ 0 := fun h => hne (List.length_eq_zero.mp h)
  refine ⟨buildIdSet idArrayObj, buildIdSet_mem idArrayObj, ?_, ?_, ?_, ?_, ?_, ?_, ?_, ?_, ?_⟩
  · intro other hother
    ext x
    rw [buildIdSet_mem, buildIdSet_mem, hother]
  all_goals first
    | (unfold removeVectors
       rw [hw, hc]
       simp only [hlen, if_false, hwr, hm, callRemoveVectors]
       cases (mgr.removeVectors (w.managers p) (buildIdSet idArrayObj)
         (w.changeSetHeap changeSet)).outcome <;> rfl)
    | (unfold enableVectors
       rw [hw, hc]
       simp only [hlen, if_false, hwr, hm, callEnableVectors]
       cases (mgr.enableVectors (w.managers p) (buildIdSet idArrayObj) enable
         (w.changeSetHeap changeSet)).outcome <;> rfl)

/-- Witness of the amended C7 on the sample world: the array `[5, 5, 3]` reaches the
Manager at 7 as the set with members 3 and 5. -/
theorem removeVectors_enableVectors_call_manager_once_witness :
    ∃ idSet : SimpleIDSet,
      (∀ x, x ∈ idSet ↔ x ∈ [5, 5, 3]) ∧
      (∀ other : List SimpleIdentity, (∀ x, x ∈ other ↔ x ∈ [5, 5, 3]) →
        buildIdSet other = idSet) ∧
      (removeVectors sampleManager sampleWorld 1 [5, 5, 3] (some 5)).2.calls
        = sampleWorld.calls ++ [ManagerCall.removeVectors 7 idSet 200] ∧
      (enableVectors sampleManager sampleWorld 1 [5, 5, 3] false (some 5)).2.calls
        = sampleWorld.calls ++ [ManagerCall.enableVectors 7 idSet false 200] ∧
      (removeVectors sampleManager sampleWorld 1 [5, 5, 3] (some 5)).1
        = Completion.returned () ∧
      (enableVectors sampleManager sampleWorld 1 [5, 5, 3] false (some 5)).1
        = Completion.returned () ∧
      (removeVectors sampleManager sampleWorld 1 [5, 5, 3] (some 5)).2.managers
        = Function.update sampleWorld.managers 7
            (sampleManager.removeVectors (sampleWorld.managers 7) idSet
              (sampleWorld.changeSetHeap 200)).mgr ∧
      (enableVectors sampleManager sampleWorld 1 [5, 5, 3] false (some 5)).2.managers
        = Function.update sampleWorld.managers 7
            (sampleManager.enableVectors (sampleWorld.managers 7) idSet false
              (sampleWorld.changeSetHeap 200)).mgr ∧
      (removeVectors sampleManager sampleWorld 1 [5, 5, 3] (some 5)).2.changeSetHeap
        = Function.update sampleWorld.changeSetHeap 200
            (sampleManager.removeVectors (sampleWorld.managers 7) idSet
              (sampleWorld.changeSetHeap 200)).changes ∧
      (enableVectors sampleManager sampleWorld 1 [5, 5, 3] false (some 5)).2.changeSetHeap
        = Function.update sampleWorld.changeSetHeap 200
            (sampleManager.enableVectors (sampleWorld.managers 7) idSet false
              (sampleWorld.changeSetHeap 200)).changes :=
  removeVectors_enableVectors_call_manager_once sampleManager sampleWorld 1 [5, 5, 3] false
    (some 5) 100 ⟨some 7, some 50⟩ 7 200 (by decide) rfl rfl rfl rfl

/-- Counterexample to C7 as stated: host object 6 holds a wrapper made by `initialise` on a
scene without vector manager.  Its wrapper handle and the change set resolve to non-null,
the array `[5, 5, 3]` is not empty, and yet neither `removeVectors` nor `enableVectors`
returns, and neither makes a Manager call. -/
theorem removeVectors_enableVectors_present_without_call :
    getObject worldWithoutManager.wrapperHandle (some 6) ≠ none ∧
      getObject worldWithoutManager.changeSetHandle (some 5) ≠ none ∧
      (removeVectors sampleManager worldWithoutManager 6 [5, 5, 3] (some 5)).1
        = Completion.fault ∧
      (enableVectors sampleManager worldWithoutManager 6 [5, 5, 3] true (some 5)).1
        = Completion.fault ∧
      (¬ ∃ call,
        (removeVectors sampleManager worldWithoutManager 6 [5, 5, 3] (some 5)).2.calls
          = worldWithoutManager.calls ++ [call]) ∧
      ¬ ∃ call,
        (enableVectors sampleManager worldWithoutManager 6 [5, 5, 3] true (some 5)).2.calls
          = worldWithoutManager.calls ++ [call] := by
  refine ⟨by decide, by decide, by decide, by decide, ?_, ?_⟩
  · rintro ⟨call, h⟩
    have h1 : (removeVectors sampleManager worldWithoutManager 6 [5, 5, 3]
        (some 5)).2.calls = [] := by decide
    rw [h1] at h
    simp at h
  · rintro ⟨call, h⟩
    have h1 : (enableVectors sampleManager worldWithoutManager 6 [5, 5, 3] true
        (some 5)).2.calls = [] := by decide
    rw [h1] at h
    simp at h


/-! ## The scene is not touched -/

/-- Replacing the scene commutes with `addVectors`. -/
theorem addVectors_withScenes (EmptyIdentity : SimpleIdentity) (mgr : VectorManager M)
    (w : World M) (obj : Nat) (vecObjList : List jobject) (vecInfoObj changeSetObj : jobject)
    (sceneHandle : Nat → Option Nat) (scenes : Nat → MapScene) (ptr : Nat → Option Nat) :
    addVectors EmptyIdentity mgr (w.withScenes sceneHandle scenes ptr) obj vecObjList
        vecInfoObj changeSetObj
      = ((addVectors EmptyIdentity mgr w obj vecObjList vecInfoObj changeSetObj).1,
          (addVectors EmptyIdentity mgr w obj vecObjList vecInfoObj
            changeSetObj).2.withScenes sceneHandle scenes ptr) := by
  unfold addVectors
  simp only [World.withScenes]
  cases hw : getObject w.wrapperHandle (some obj) with
  | none => rfl
  | some wrap =>
  cases hi : getObject w.vecInfos vecInfoObj with
  | none => rfl
  | some vecInfo =>
  cases hc : getObject w.changeSetHandle changeSetObj with
  | none => rfl
  | some changeSet =>
  cases hs : collectShapes w.vecObjs vecObjList ∅ with
  | none => rfl
  | some shapes =>
  cases hwr : w.wrappers wrap with
  | none => simp only [hwr]
  | some wrapper =>
  cases hm : wrapper.vecManager with
  | none => simp only [hwr, hm]
  | some p =>
  simp only [hwr, hm, callAddVectors]
  cases (mgr.addVectors (w.managers p) shapes vecInfo (w.changeSetHeap changeSet)).outcome
    <;> rfl

/-- Replacing the scene commutes with `removeVectors`. -/
theorem removeVectors_withScenes (mgr : VectorManager M) (w : World M) (obj : Nat)
    (idArrayObj : List SimpleIdentity) (changeSetObj : jobject)
    (sceneHandle : Nat → Option Nat) (scenes : Nat → MapScene) (ptr : Nat → Option Nat) :
    removeVectors mgr (w.withScenes sceneHandle scenes ptr) obj idArrayObj changeSetObj
      = ((removeVectors mgr w obj idArrayObj changeSetObj).1,
          (removeVectors mgr w obj idArrayObj changeSetObj).2.withScenes
            sceneHandle scenes ptr) := by
  unfold removeVectors
  simp only [World.withScenes]
  cases hw : getObject w.wrapperHandle (some obj) with
  | none => rfl
  | some wrap =>
  cases hc : getObject w.changeSetHandle changeSetObj with
  | none => rfl
  | some changeSet =>
  by_cases hlen : idArrayObj.length = 0
  · simp only [hlen, if_true]
  · simp only [hlen, if_false]
    cases hwr : w.wrappers wrap with
    | none => simp only [hwr]
    | some wrapper =>
    cases hm : wrapper.vecManager with
    | none => simp only [hwr, hm]
    | some p =>
    simp only [hwr, hm, callRemoveVectors]
    cases (mgr.removeVectors (w.managers p) (buildIdSet idArrayObj)
      (w.changeSetHeap changeSet)).outcome <;> rfl

/-- Replacing the scene commutes with `enableVectors`. -/
theorem enableVectors_withScenes (mgr : VectorManager M) (w : World M) (obj : Nat)
    (idArrayObj : List SimpleIdentity) (enable : Bool) (changeSetObj : jobject)
    (sceneHandle : Nat → Option Nat) (scenes : Nat → MapScene) (ptr : Nat → Option Nat) :
    enableVectors mgr (w.withScenes sceneHandle scenes ptr) obj idArrayObj enable changeSetObj
      = ((enableVectors mgr w obj idArrayObj enable changeSetObj).1,
          (enableVectors mgr w obj idArrayObj enable changeSetObj).2.withScenes
            sceneHandle scenes ptr) := by
  unfold enableVectors
  simp only [World.withScenes]
  cases hw : getObject w.wrapperHandle (some obj) with
  | none => rfl
  | some wrap =>
  cases hc : getObject w.changeSetHandle changeSetObj with
  | none => rfl
  | some changeSet =>
  by_cases hlen : idArrayObj.length = 0
  · simp only [hlen, if_true]
  · simp only [hlen, if_false]
    cases hwr : w.wrappers wrap with
    | none => simp only [hwr]
    | some wrapper =>
    cases hm : wrapper.vecManager with
    | none => simp only [hwr, hm]
    | some p =>
    simp only [hwr, hm, callEnableVectors]
    cases (mgr.enableVectors (w.managers p) (buildIdSet idArrayObj) enable
      (w.changeSetHeap changeSet)).outcome <;> rfl

/-- With a null collaborator `addVectors` hands back the world it was given. -/
theorem addVectors_of_null (EmptyIdentity : SimpleIdentity) (mgr : VectorManager M)
    (w : World M) (obj : Nat) (vecObjList : List jobject) (vecInfoObj changeSetObj : jobject)
    (h : getObject w.wrapperHandle (some obj) = none ∨
      getObject w.vecInfos vecInfoObj = none ∨
      getObject w.changeSetHandle changeSetObj = none) :
    addVectors EmptyIdentity mgr w obj vecObjList vecInfoObj changeSetObj
      = (Completion.returned EmptyIdentity, w) := by
  unfold addVectors
  split
  · next h1 h2 h3 =>
    rw [h1, h2, h3] at h
    simp at h
  · rfl

/-- With a null collaborator `removeVectors` hands back the world it was given. -/
theorem removeVectors_of_null (mgr : VectorManager M) (w : World M) (obj : Nat)
    (idArrayObj : List SimpleIdentity) (changeSetObj : jobject)
    (h : getObject w.wrapperHandle (some obj) = none ∨
      getObject w.changeSetHandle changeSetObj = none) :
    removeVectors mgr w obj idArrayObj changeSetObj = (Completion.returned (), w) := by
  unfold removeVectors
  split
  · next h1 h2 =>
    rw [h1, h2] at h
    simp at h
  · rfl

/-- With a null collaborator `enableVectors` hands back the world it was given. -/
theorem enableVectors_of_null (mgr : VectorManager M) (w : World M) (obj : Nat)
    (idArrayObj : List SimpleIdentity) (enable : Bool) (changeSetObj : jobject)
    (h : getObject w.wrapperHandle (some obj) = none ∨
      getObject w.changeSetHandle changeSetObj = none) :
    enableVectors mgr w obj idArrayObj enable changeSetObj = (Completion.returned (), w) := by
  unfold enableVectors
  split
  · next h1 h2 =>
    rw [h1, h2] at h
    simp at h
  · rfl

/-- Every outcome of `addVectors`, path by path: a collaborator is null and the world is
handed back with `EmptyIdentity`; or the collaborators are present and the call faults
before the Manager is reached (an element of the list resolves to null, the wrapper is
dangling, or its `vecManager` is null), the world being as before; or the Manager of the
wrapper is invoked once on the caller's change set and the state is the one before plus
that invocation, plus one log line exactly when the Manager threw. -/
theorem addVectors_effect (EmptyIdentity : SimpleIdentity) (mgr : VectorManager M)
    (w : World M) (obj : Nat) (vecObjList : List jobject) (vecInfoObj changeSetObj : jobject) :
    ((getObject w.wrapperHandle (some obj) = none ∨ getObject w.vecInfos vecInfoObj = none ∨
        getObject w.changeSetHandle changeSetObj = none) ∧
      (addVectors EmptyIdentity mgr w obj vecObjList vecInfoObj changeSetObj)
        = (Completion.returned EmptyIdentity, w)) ∨
    (∃ wrap vecInfo changeSet,
      getObject w.wrapperHandle (some obj) = some wrap ∧
      getObject w.vecInfos vecInfoObj = some vecInfo ∧
      getObject w.changeSetHandle changeSetObj = some changeSet ∧
      (collectShapes w.vecObjs vecObjList ∅ = none ∨ w.wrappers wrap = none ∨
        ∃ wrapper, w.wrappers wrap = some wrapper ∧ wrapper.vecManager = none) ∧
      (addVectors EmptyIdentity mgr w obj vecObjList vecInfoObj changeSetObj)
        = (Completion.fault, w)) ∨
    ∃ wrap wrapper p shapes vecInfo changeSet,
      getObject w.wrapperHandle (some obj) = some wrap ∧ w.wrappers wrap = some wrapper ∧
      wrapper.vecManager = some p ∧ getObject w.vecInfos vecInfoObj = some vecInfo ∧
      getObject w.changeSetHandle changeSetObj = some changeSet ∧
      collectShapes w.vecObjs vecObjList ∅ = some shapes ∧
      ((∃ vecId, (mgr.addVectors (w.managers p) shapes vecInfo (w.changeSetHeap changeSet)).outcome = some vecId ∧
          (addVectors EmptyIdentity mgr w obj vecObjList vecInfoObj changeSetObj)
            = (Completion.returned vecId,
                managerInvocationEffect w p (mgr.addVectors (w.managers p) shapes vecInfo (w.changeSetHeap changeSet)).mgr changeSet
                  (mgr.addVectors (w.managers p) shapes vecInfo (w.changeSetHeap changeSet)).changes
                  (ManagerCall.addVectors p shapes vecInfo changeSet))) ∨
        ((mgr.addVectors (w.managers p) shapes vecInfo (w.changeSetHeap changeSet)).outcome = none ∧
          (addVectors EmptyIdentity mgr w obj vecObjList vecInfoObj changeSetObj)
            = (Completion.noReturnValue,
                { managerInvocationEffect w p (mgr.addVectors (w.managers p) shapes vecInfo (w.changeSetHeap changeSet)).mgr changeSet
                    (mgr.addVectors (w.managers p) shapes vecInfo (w.changeSetHeap changeSet)).changes
                    (ManagerCall.addVectors p shapes vecInfo changeSet) with
                  androidLog :=
                    w.androidLog ++ ["Crash in VectorManager::addVectors()"] }))) := by
  rcases Option.eq_none_or_eq_some (getObject w.wrapperHandle (some obj)) with hw | ⟨wrap, hw⟩
  · exact Or.inl ⟨Or.inl hw, addVectors_of_null _ _ _ _ _ _ _ (Or.inl hw)⟩
  rcases Option.eq_none_or_eq_some (getObject w.vecInfos vecInfoObj) with hi | ⟨vecInfo, hi⟩
  · exact Or.inl ⟨Or.inr (Or.inl hi), addVectors_of_null _ _ _ _ _ _ _ (Or.inr (Or.inl hi))⟩
  rcases Option.eq_none_or_eq_some (getObject w.changeSetHandle changeSetObj)
    with hc | ⟨changeSet, hc⟩
  · exact Or.inl ⟨Or.inr (Or.inr hc), addVectors_of_null _ _ _ _ _ _ _ (Or.inr (Or.inr hc))⟩
  right
  rcases Option.eq_none_or_eq_some (collectShapes w.vecObjs vecObjList ∅)
    with hs | ⟨shapes, hs⟩
  · left
    refine ⟨wrap, vecInfo, changeSet, hw, hi, hc, Or.inl hs, ?_⟩
    unfold addVectors
    rw [hw, hi, hc]
    simp only [hs]
  rcases Option.eq_none_or_eq_some (w.wrappers wrap) with hwr | ⟨wrapper, hwr⟩
  · left
    refine ⟨wrap, vecInfo, changeSet, hw, hi, hc, Or.inr (Or.inl hwr), ?_⟩
    unfold addVectors
    rw [hw, hi, hc]
    simp only [hs, hwr]
  rcases Option.eq_none_or_eq_some wrapper.vecManager with hm | ⟨p, hm⟩
  · left
    refine ⟨wrap, vecInfo, changeSet, hw, hi, hc, Or.inr (Or.inr ⟨wrapper, hwr, hm⟩), ?_⟩
    unfold addVectors
    rw [hw, hi, hc]
    simp only [hs, hwr, hm]
  right
  refine ⟨wrap, wrapper, p, shapes, vecInfo, changeSet, hw, hwr, hm, hi, hc, hs, ?_⟩
  rcases Option.eq_none_or_eq_some
    (mgr.addVectors (w.managers p) shapes vecInfo (w.changeSetHeap changeSet)).outcome
    with ho | ⟨vecId, ho⟩
  · right
    refine ⟨ho, ?_⟩
    unfold addVectors
    rw [hw, hi, hc]
    simp only [hs, hwr, hm, callAddVectors, ho]
    rfl
  · left
    refine ⟨vecId, ho, ?_⟩
    unfold addVectors
    rw [hw, hi, hc]
    simp only [hs, hwr, hm, callAddVectors, ho]
    rfl

/-- Every outcome of `removeVectors`, path by path: a collaborator is null and the world is
handed back; or the collaborators are present and the array is empty, and then only `jni`
may differ; or the call faults before the Manager is reached, with the element buffer
obtained and released; or the Manager of the wrapper is invoked once on the caller's
change set and the state is the one before plus that invocation and the buffer calls, plus
one log line exactly when the Manager threw. -/
theorem removeVectors_effect (mgr : VectorManager M) (w : World M) (obj : Nat)
    (idArrayObj : List SimpleIdentity) (changeSetObj : jobject) :
    ((getObject w.wrapperHandle (some obj) = none ∨
        getObject w.changeSetHandle changeSetObj = none) ∧
      (removeVectors mgr w obj idArrayObj changeSetObj) = (Completion.returned (), w)) ∨
    (∃ wrap changeSet,
      getObject w.wrapperHandle (some obj) = some wrap ∧
      getObject w.changeSetHandle changeSetObj = some changeSet ∧ idArrayObj = [] ∧
      (removeVectors mgr w obj idArrayObj changeSetObj).1 = Completion.returned () ∧
      (removeVectors mgr w obj idArrayObj changeSetObj).2
        = { w with jni := (removeVectors mgr w obj idArrayObj changeSetObj).2.jni }) ∨
    (∃ wrap changeSet,
      getObject w.wrapperHandle (some obj) = some wrap ∧
      getObject w.changeSetHandle changeSetObj = some changeSet ∧ idArrayObj ≠ [] ∧
      (w.wrappers wrap = none ∨
        ∃ wrapper, w.wrappers wrap = some wrapper ∧ wrapper.vecManager = none) ∧
      (removeVectors mgr w obj idArrayObj changeSetObj)
        = (Completion.fault, { w with jni := w.jni ++ [JNICall.GetLongArrayElements, JNICall.ReleaseLongArrayElements 0] })) ∨
    ∃ wrap wrapper p changeSet,
      getObject w.wrapperHandle (some obj) = some wrap ∧ w.wrappers wrap = some wrapper ∧
      wrapper.vecManager = some p ∧
      getObject w.changeSetHandle changeSetObj = some changeSet ∧ idArrayObj ≠ [] ∧
      (((mgr.removeVectors (w.managers p) (buildIdSet idArrayObj) (w.changeSetHeap changeSet)).outcome
            ≠ none ∧
          (removeVectors mgr w obj idArrayObj changeSetObj)
            = (Completion.returned (),
                { managerInvocationEffect w p
                    (mgr.removeVectors (w.managers p) (buildIdSet idArrayObj) (w.changeSetHeap changeSet)).mgr
                    changeSet
                    (mgr.removeVectors (w.managers p) (buildIdSet idArrayObj) (w.changeSetHeap changeSet)).changes
                    (ManagerCall.removeVectors p (buildIdSet idArrayObj) changeSet) with
                  jni := w.jni ++ [JNICall.GetLongArrayElements, JNICall.ReleaseLongArrayElements 0] })) ∨
        ((mgr.removeVectors (w.managers p) (buildIdSet idArrayObj) (w.changeSetHeap changeSet)).outcome
            = none ∧
          (removeVectors mgr w obj idArrayObj changeSetObj)
            = (Completion.returned (),
                { managerInvocationEffect w p
                    (mgr.removeVectors (w.managers p) (buildIdSet idArrayObj) (w.changeSetHeap changeSet)).mgr
                    changeSet
                    (mgr.removeVectors (w.managers p) (buildIdSet idArrayObj) (w.changeSetHeap changeSet)).changes
                    (ManagerCall.removeVectors p (buildIdSet idArrayObj) changeSet) with
                  jni := w.jni ++ [JNICall.GetLongArrayElements, JNICall.ReleaseLongArrayElements 0]
                  androidLog := w.androidLog ++ ["Crash in VectorManager::removeVectors()"] }))) := by
  rcases Option.eq_none_or_eq_some (getObject w.wrapperHandle (some obj)) with hw | ⟨wrap, hw⟩
  · exact Or.inl ⟨Or.inl hw, removeVectors_of_null _ _ _ _ _ (Or.inl hw)⟩
  rcases Option.eq_none_or_eq_some (getObject w.changeSetHandle changeSetObj)
    with hc | ⟨changeSet, hc⟩
  · exact Or.inl ⟨Or.inr hc, removeVectors_of_null _ _ _ _ _ (Or.inr hc)⟩
  right
  by_cases hne : idArrayObj = []
  · left
    subst hne
    refine ⟨wrap, changeSet, hw, hc, rfl, ?_, ?_⟩ <;>
    · unfold removeVectors
      rw [hw, hc]
      rfl
  right
  have hlen : idArrayObj.length ≠ 0 := fun h => hne (List.length_eq_zero.mp h)
  rcases Option.eq_none_or_eq_some (w.wrappers wrap) with hwr | ⟨wrapper, hwr⟩
  · left
    refine ⟨wrap, changeSet, hw, hc, hne, Or.inl hwr, ?_⟩
    unfold removeVectors
    rw [hw, hc]
    simp only [hlen, if_false, hwr, List.append_assoc, List.singleton_append]
  rcases Option.eq_none_or_eq_some wrapper.vecManager with hm | ⟨p, hm⟩
  · left
    refine ⟨wrap, changeSet, hw, hc, hne, Or.inr ⟨wrapper, hwr, hm⟩, ?_⟩
    unfold removeVectors
    rw [hw, hc]
    simp only [hlen, if_false, hwr, hm, List.append_assoc, List.singleton_append]
  right
  refine ⟨wrap, wrapper, p, changeSet, hw, hwr, hm, hc, hne, ?_⟩
  rcases Option.eq_none_or_eq_some
    (mgr.removeVectors (w.managers p) (buildIdSet idArrayObj)
      (w.changeSetHeap changeSet)).outcome with ho | ⟨u, ho⟩
  · right
    refine ⟨ho, ?_⟩
    unfold removeVectors
    rw [hw, hc]
    simp only [hlen, if_false, hwr, hm, callRemoveVectors, ho, managerInvocationEffect,
      List.append_assoc, List.singleton_append]
  · left
    refine ⟨by rw [ho]; simp, ?_⟩
    unfold removeVectors
    rw [hw, hc]
    simp only [hlen, if_false, hwr, hm, callRemoveVectors, ho, managerInvocationEffect,
      List.append_assoc, List.singleton_append]

/-- Every outcome of `enableVectors`, path by path, as for `removeVectors`. -/
theorem enableVectors_effect (mgr : VectorManager M) (w : World M) (obj : Nat)
    (idArrayObj : List SimpleIdentity) (enable : Bool) (changeSetObj : jobject) :
    ((getObject w.wrapperHandle (some obj) = none ∨
        getObject w.changeSetHandle changeSetObj = none) ∧
      (enableVectors mgr w obj idArrayObj enable changeSetObj) = (Completion.returned (), w)) ∨
    (∃ wrap changeSet,
      getObject w.wrapperHandle (some obj) = some wrap ∧
      getObject w.changeSetHandle changeSetObj = some changeSet ∧ idArrayObj = [] ∧
      (enableVectors mgr w obj idArrayObj enable changeSetObj).1 = Completion.returned () ∧
      (enableVectors mgr w obj idArrayObj enable changeSetObj).2
        = { w with jni := (enableVectors mgr w obj idArrayObj enable changeSetObj).2.jni }) ∨
    (∃ wrap changeSet,
      getObject w.wrapperHandle (some obj) = some wrap ∧
      getObject w.changeSetHandle changeSetObj = some changeSet ∧ idArrayObj ≠ [] ∧
      (w.wrappers wrap = none ∨
        ∃ wrapper, w.wrappers wrap = some wrapper ∧ wrapper.vecManager = none) ∧
      (enableVectors mgr w obj idArrayObj enable changeSetObj)
        = (Completion.fault, { w with jni := w.jni ++ [JNICall.GetLongArrayElements, JNICall.ReleaseLongArrayElements 0] })) ∨
    ∃ wrap wrapper p changeSet,
      getObject w.wrapperHandle (some obj) = some wrap ∧ w.wrappers wrap = some wrapper ∧
      wrapper.vecManager = some p ∧
      getObject w.changeSetHandle changeSetObj = some changeSet ∧ idArrayObj ≠ [] ∧
      (((mgr.enableVectors (w.managers p) (buildIdSet idArrayObj) enable (w.changeSetHeap changeSet)).outcome
            ≠ none ∧
          (enableVectors mgr w obj idArrayObj enable changeSetObj)
            = (Completion.returned (),
                { managerInvocationEffect w p
                    (mgr.enableVectors (w.managers p) (buildIdSet idArrayObj) enable (w.changeSetHeap changeSet)).mgr
                    changeSet
                    (mgr.enableVectors (w.managers p) (buildIdSet idArrayObj) enable (w.changeSetHeap changeSet)).changes
                    (ManagerCall.enableVectors p (buildIdSet idArrayObj) enable changeSet) with
                  jni := w.jni ++ [JNICall.GetLongArrayElements, JNICall.ReleaseLongArrayElements 0] })) ∨
        ((mgr.enableVectors (w.managers p) (buildIdSet idArrayObj) enable (w.changeSetHeap changeSet)).outcome
            = none ∧
          (enableVectors mgr w obj idArrayObj enable changeSetObj)
            = (Completion.returned (),
                { managerInvocationEffect w p
                    (mgr.enableVectors (w.managers p) (buildIdSet idArrayObj) enable (w.changeSetHeap changeSet)).mgr
                    changeSet
                    (mgr.enableVectors (w.managers p) (buildIdSet idArrayObj) enable (w.changeSetHeap changeSet)).changes
                    (ManagerCall.enableVectors p (buildIdSet idArrayObj) enable changeSet) with
                  jni := w.jni ++ [JNICall.GetLongArrayElements, JNICall.ReleaseLongArrayElements 0]
                  androidLog := w.androidLog ++ ["Crash in VectorManager::enableVectors()"] }))) := by
  rcases Option.eq_none_or_eq_some (getObject w.wrapperHandle (some obj)) with hw | ⟨wrap, hw⟩
  · exact Or.inl ⟨Or.inl hw, enableVectors_of_null _ _ _ _ _ _ (Or.inl hw)⟩
  rcases Option.eq_none_or_eq_some (getObject w.changeSetHandle changeSetObj)
    with hc | ⟨changeSet, hc⟩
  · exact Or.inl ⟨Or.inr hc, enableVectors_of_null _ _ _ _ _ _ (Or.inr hc)⟩
  right
  by_cases hne : idArrayObj = []
  · left
    subst hne
    refine ⟨wrap, changeSet, hw, hc, rfl, ?_, ?_⟩ <;>
    · unfold enableVectors
      rw [hw, hc]
      rfl
  right
  have hlen : idArrayObj.length ≠ 0 := fun h => hne (List.length_eq_zero.mp h)
  rcases Option.eq_none_or_eq_some (w.wrappers wrap) with hwr | ⟨wrapper, hwr⟩
  · left
    refine ⟨wrap, changeSet, hw, hc, hne, Or.inl hwr, ?_⟩
    unfold enableVectors
    rw [hw, hc]
    simp only [hlen, if_false, hwr, List.append_assoc, List.singleton_append]
  rcases Option.eq_none_or_eq_some wrapper.vecManager with hm | ⟨p, hm⟩
  · left
    refine ⟨wrap, changeSet, hw, hc, hne, Or.inr ⟨wrapper, hwr, hm⟩, ?_⟩
    unfold enableVectors
    rw [hw, hc]
    simp only [hlen, if_false, hwr, hm, List.append_assoc, List.singleton_append]
  right
  refine ⟨wrap, wrapper, p, changeSet, hw, hwr, hm, hc, hne, ?_⟩
  rcases Option.eq_none_or_eq_some
    (mgr.enableVectors (w.managers p) (buildIdSet idArrayObj) enable
      (w.changeSetHeap changeSet)).outcome with ho | ⟨u, ho⟩
  · right
    refine ⟨ho, ?_⟩
    unfold enableVectors
    rw [hw, hc]
    simp only [hlen, if_false, hwr, hm, callEnableVectors, ho, managerInvocationEffect,
      List.append_assoc, List.singleton_append]
  · left
    refine ⟨by rw [ho]; simp, ?_⟩
    unfold enableVectors
    rw [hw, hc]
    simp only [hlen, if_false, hwr, hm, callEnableVectors, ho, managerInvocationEffect,
      List.append_assoc, List.singleton_append]

/-- Counterexample to C8 as stated: with wrapper and change set present and a Manager that
throws, `removeVectors` on the array `[3]` returns normally, and the state it leaves is
neither the state before the call nor that state plus one Manager invocation: the handler
has written a line to the log. -/
theorem removeVectors_effect_beyond_invocation :
    (removeVectors throwingManager sampleWorld 1 [3] (some 5)).1 = Completion.returned () ∧
      (removeVectors throwingManager sampleWorld 1 [3] (some 5)).2.androidLog
        = ["Crash in VectorManager::removeVectors()"] ∧
      ¬ ((removeVectors throwingManager sampleWorld 1 [3] (some 5)).2 = sampleWorld ∨
        ∃ p mgrAfter changeSet changes call,
          (removeVectors throwingManager sampleWorld 1 [3] (some 5)).2
            = managerInvocationEffect sampleWorld p mgrAfter changeSet changes call) := by
  have hlog : (removeVectors throwingManager sampleWorld 1 [3] (some 5)).2.androidLog
      = ["Crash in VectorManager::removeVectors()"] := by decide
  refine ⟨by decide, hlog, ?_⟩
  rintro (h | ⟨p, mgrAfter, changeSet, changes, call, h⟩)
  · have h2 := congrArg World.androidLog h
    rw [hlog] at h2
    exact absurd h2 (by decide)
  · have h2 : (removeVectors throwingManager sampleWorld 1 [3] (some 5)).2.androidLog
        = sampleWorld.androidLog := by
      rw [h]
      rfl
    rw [hlog] at h2
    exact absurd h2 (by decide)

/-- C8, amended: `addVectors`, `removeVectors` and `enableVectors` never touch the scene.
Not read: with any other scene table, other host scene handles and any other `scene`
pointer in the wrappers, each binding ends the same way and leaves the same state (up to
that replacement).  Not written: scenes, scene handles and wrappers are as before.  And
every call is one of these, with the result and the whole state given:
(a) a collaborator is null: the binding returns at once and the state is the one before;
(b) the Manager of the wrapper is invoked exactly once on the caller's change set: the
state is the one before plus that invocation (the Manager's state and the change set as
the Manager left them, the call recorded), plus one diagnostic log line exactly when the
Manager threw, plus, for `removeVectors` and `enableVectors`, the obtaining and the
releasing of the element buffer;
(c) the call faults before the Manager is reached: the state is the one before, plus the
buffer calls for `removeVectors` and `enableVectors`;
(d) for `removeVectors` and `enableVectors` on an empty array: the binding returns and
nothing but the buffer bookkeeping `jni` may differ from the state before. -/
theorem bindings_never_touch_scene (EmptyIdentity : SimpleIdentity) (mgr : VectorManager M)
    (w : World M) (obj : Nat) (vecObjList : List jobject) (idArrayObj : List SimpleIdentity)
    (enable : Bool) (vecInfoObj changeSetObj : jobject)
    (sceneHandle : Nat → Option Nat) (scenes : Nat → MapScene) (ptr : Nat → Option Nat) :
    (addVectors EmptyIdentity mgr (w.withScenes sceneHandle scenes ptr) obj vecObjList
        vecInfoObj changeSetObj
      = ((addVectors EmptyIdentity mgr w obj vecObjList vecInfoObj changeSetObj).1,
          (addVectors EmptyIdentity mgr w obj vecObjList vecInfoObj
            changeSetObj).2.withScenes sceneHandle scenes ptr)) ∧
    (removeVectors mgr (w.withScenes sceneHandle scenes ptr) obj idArrayObj changeSetObj
      = ((removeVectors mgr w obj idArrayObj changeSetObj).1,
          (removeVectors mgr w obj idArrayObj changeSetObj).2.withScenes
            sceneHandle scenes ptr)) ∧
    (enableVectors mgr (w.withScenes sceneHandle scenes ptr) obj idArrayObj enable changeSetObj
      = ((enableVectors mgr w obj idArrayObj enable changeSetObj).1,
          (enableVectors mgr w obj idArrayObj enable changeSetObj).2.withScenes
            sceneHandle scenes ptr)) ∧
    ((addVectors EmptyIdentity mgr w obj vecObjList vecInfoObj changeSetObj).2.scenes
        = w.scenes ∧
      (addVectors EmptyIdentity mgr w obj vecObjList vecInfoObj changeSetObj).2.sceneHandle
        = w.sceneHandle ∧
      (addVectors EmptyIdentity mgr w obj vecObjList vecInfoObj changeSetObj).2.wrappers
        = w.wrappers) ∧
    ((removeVectors mgr w obj idArrayObj changeSetObj).2.scenes = w.scenes ∧
      (removeVectors mgr w obj idArrayObj changeSetObj).2.sceneHandle = w.sceneHandle ∧
      (removeVectors mgr w obj idArrayObj changeSetObj).2.wrappers = w.wrappers) ∧
    ((enableVectors mgr w obj idArrayObj enable changeSetObj).2.scenes = w.scenes ∧
      (enableVectors mgr w obj idArrayObj enable changeSetObj).2.sceneHandle
        = w.sceneHandle ∧
      (enableVectors mgr w obj idArrayObj enable changeSetObj).2.wrappers = w.wrappers) ∧
    (((getObject w.wrapperHandle (some obj) = none ∨ getObject w.vecInfos vecInfoObj = none ∨
        getObject w.changeSetHandle changeSetObj = none) ∧
      (addVectors EmptyIdentity mgr w obj vecObjList vecInfoObj changeSetObj)
        = (Completion.returned EmptyIdentity, w)) ∨
    (∃ wrap vecInfo changeSet,
      getObject w.wrapperHandle (some obj) = some wrap ∧
      getObject w.vecInfos vecInfoObj = some vecInfo ∧
      getObject w.changeSetHandle changeSetObj = some changeSet ∧
      (collectShapes w.vecObjs vecObjList ∅ = none ∨ w.wrappers wrap = none ∨
        ∃ wrapper, w.wrappers wrap = some wrapper ∧ wrapper.vecManager = none) ∧
      (addVectors EmptyIdentity mgr w obj vecObjList vecInfoObj changeSetObj)
        = (Completion.fault, w)) ∨
    ∃ wrap wrapper p shapes vecInfo changeSet,
      getObject w.wrapperHandle (some obj) = some wrap ∧ w.wrappers wrap = some wrapper ∧
      wrapper.vecManager = some p ∧ getObject w.vecInfos vecInfoObj = some vecInfo ∧
      getObject w.changeSetHandle changeSetObj = some changeSet ∧
      collectShapes w.vecObjs vecObjList ∅ = some shapes ∧
      ((∃ vecId, (mgr.addVectors (w.managers p) shapes vecInfo (w.changeSetHeap changeSet)).outcome = some vecId ∧
          (addVectors EmptyIdentity mgr w obj vecObjList vecInfoObj changeSetObj)
            = (Completion.returned vecId,
                managerInvocationEffect w p (mgr.addVectors (w.managers p) shapes vecInfo (w.changeSetHeap changeSet)).mgr changeSet
                  (mgr.addVectors (w.managers p) shapes vecInfo (w.changeSetHeap changeSet)).changes
                  (ManagerCall.addVectors p shapes vecInfo changeSet))) ∨
        ((mgr.addVectors (w.managers p) shapes vecInfo (w.changeSetHeap changeSet)).outcome = none ∧
          (addVectors EmptyIdentity mgr w obj vecObjList vecInfoObj changeSetObj)
            = (Completion.noReturnValue,
                { managerInvocationEffect w p (mgr.addVectors (w.managers p) shapes vecInfo (w.changeSetHeap changeSet)).mgr changeSet
                    (mgr.addVectors (w.managers p) shapes vecInfo (w.changeSetHeap changeSet)).changes
                    (ManagerCall.addVectors p shapes vecInfo changeSet) with
                  androidLog :=
                    w.androidLog ++ ["Crash in VectorManager::addVectors()"] })))) ∧
    (((getObject w.wrapperHandle (some obj) = none ∨
        getObject w.changeSetHandle changeSetObj = none) ∧
      (removeVectors mgr w obj idArrayObj changeSetObj) = (Completion.returned (), w)) ∨
    (∃ wrap changeSet,
      getObject w.wrapperHandle (some obj) = some wrap ∧
      getObject w.changeSetHandle changeSetObj = some changeSet ∧ idArrayObj = [] ∧
      (removeVectors mgr w obj idArrayObj changeSetObj).1 = Completion.returned () ∧
      (removeVectors mgr w obj idArrayObj changeSetObj).2
        = { w with jni := (removeVectors mgr w obj idArrayObj changeSetObj).2.jni }) ∨
    (∃ wrap changeSet,
      getObject w.wrapperHandle (some obj) = some wrap ∧
      getObject w.changeSetHandle changeSetObj = some changeSet ∧ idArrayObj ≠ [] ∧
      (w.wrappers wrap = none ∨
        ∃ wrapper, w.wrappers wrap = some wrapper ∧ wrapper.vecManager = none) ∧
      (removeVectors mgr w obj idArrayObj changeSetObj)
        = (Completion.fault, { w with jni := w.jni ++ [JNICall.GetLongArrayElements, JNICall.ReleaseLongArrayElements 0] })) ∨
    ∃ wrap wrapper p changeSet,
      getObject w.wrapperHandle (some obj) = some wrap ∧ w.wrappers wrap = some wrapper ∧
      wrapper.vecManager = some p ∧
      getObject w.changeSetHandle changeSetObj = some changeSet ∧ idArrayObj ≠ [] ∧
      (((mgr.removeVectors (w.managers p) (buildIdSet idArrayObj) (w.changeSetHeap changeSet)).outcome
            ≠ none ∧
          (removeVectors mgr w obj idArrayObj changeSetObj)
            = (Completion.returned (),
                { managerInvocationEffect w p
                    (mgr.removeVectors (w.managers p) (buildIdSet idArrayObj) (w.changeSetHeap changeSet)).mgr
                    changeSet
                    (mgr.removeVectors (w.managers p) (buildIdSet idArrayObj) (w.changeSetHeap changeSet)).changes
                    (ManagerCall.removeVectors p (buildIdSet idArrayObj) changeSet) with
                  jni := w.jni ++ [JNICall.GetLongArrayElements, JNICall.ReleaseLongArrayElements 0] })) ∨
        ((mgr.removeVectors (w.managers p) (buildIdSet idArrayObj) (w.changeSetHeap changeSet)).outcome
            = none ∧
          (removeVectors mgr w obj idArrayObj changeSetObj)
            = (Completion.returned (),
                { managerInvocationEffect w p
                    (mgr.removeVectors (w.managers p) (buildIdSet idArrayObj) (w.changeSetHeap changeSet)).mgr
                    changeSet
                    (mgr.removeVectors (w.managers p) (buildIdSet idArrayObj) (w.changeSetHeap changeSet)).changes
                    (ManagerCall.removeVectors p (buildIdSet idArrayObj) changeSet) with
                  jni := w.jni ++ [JNICall.GetLongArrayElements, JNICall.ReleaseLongArrayElements 0]
                  androidLog := w.androidLog ++ ["Crash in VectorManager::removeVectors()"] })))) ∧
    (((getObject w.wrapperHandle (some obj) = none ∨
        getObject w.changeSetHandle changeSetObj = none) ∧
      (enableVectors mgr w obj idArrayObj enable changeSetObj) = (Completion.returned (), w)) ∨
    (∃ wrap changeSet,
      getObject w.wrapperHandle (some obj) = some wrap ∧
      getObject w.changeSetHandle changeSetObj = some changeSet ∧ idArrayObj = [] ∧
      (enableVectors mgr w obj idArrayObj enable changeSetObj).1 = Completion.returned () ∧
      (enableVectors mgr w obj idArrayObj enable changeSetObj).2
        = { w with jni := (enableVectors mgr w obj idArrayObj enable changeSetObj).2.jni }) ∨
    (∃ wrap changeSet,
      getObject w.wrapperHandle (some obj) = some wrap ∧
      getObject w.changeSetHandle changeSetObj = some changeSet ∧ idArrayObj ≠ [] ∧
      (w.wrappers wrap = none ∨
        ∃ wrapper, w.wrappers wrap = some wrapper ∧ wrapper.vecManager = none) ∧
      (enableVectors mgr w obj idArrayObj enable changeSetObj)
        = (Completion.fault, { w with jni := w.jni ++ [JNICall.GetLongArrayElements, JNICall.ReleaseLongArrayElements 0] })) ∨
    ∃ wrap wrapper p changeSet,
      getObject w.wrapperHandle (some obj) = some wrap ∧ w.wrappers wrap = some wrapper ∧
      wrapper.vecManager = some p ∧
      getObject w.changeSetHandle changeSetObj = some changeSet ∧ idArrayObj ≠ [] ∧
      (((mgr.enableVectors (w.managers p) (buildIdSet idArrayObj) enable (w.changeSetHeap changeSet)).outcome
            ≠ none ∧
          (enableVectors mgr w obj idArrayObj enable changeSetObj)
            = (Completion.returned (),
                { managerInvocationEffect w p
                    (mgr.enableVectors (w.managers p) (buildIdSet idArrayObj) enable (w.changeSetHeap changeSet)).mgr
                    changeSet
                    (mgr.enableVectors (w.managers p) (buildIdSet idArrayObj) enable (w.changeSetHeap changeSet)).changes
                    (ManagerCall.enableVectors p (buildIdSet idArrayObj) enable changeSet) with
                  jni := w.jni ++ [JNICall.GetLongArrayElements, JNICall.ReleaseLongArrayElements 0] })) ∨
        ((mgr.enableVectors (w.managers p) (buildIdSet idArrayObj) enable (w.changeSetHeap changeSet)).outcome
            = none ∧
          (enableVectors mgr w obj idArrayObj enable changeSetObj)
            = (Completion.returned (),
                { managerInvocationEffect w p
                    (mgr.enableVectors (w.managers p) (buildIdSet idArrayObj) enable (w.changeSetHeap changeSet)).mgr
                    changeSet
                    (mgr.enableVectors (w.managers p) (buildIdSet idArrayObj) enable (w.changeSetHeap changeSet)).changes
                    (ManagerCall.enableVectors p (buildIdSet idArrayObj) enable changeSet) with
                  jni := w.jni ++ [JNICall.GetLongArrayElements, JNICall.ReleaseLongArrayElements 0]
                  androidLog := w.androidLog ++ ["Crash in VectorManager::enableVectors()"] })))) := by
  have hadd := addVectors_effect EmptyIdentity mgr w obj vecObjList vecInfoObj changeSetObj
  have hrem := removeVectors_effect mgr w obj idArrayObj changeSetObj
  have hena := enableVectors_effect mgr w obj idArrayObj enable changeSetObj
  refine ⟨addVectors_withScenes EmptyIdentity mgr w obj vecObjList vecInfoObj changeSetObj
      sceneHandle scenes ptr,
    removeVectors_withScenes mgr w obj idArrayObj changeSetObj sceneHandle scenes ptr,
    enableVectors_withScenes mgr w obj idArrayObj enable changeSetObj sceneHandle scenes ptr,
    ?_, ?_, ?_, hadd, hrem, hena⟩
  · rcases hadd with ⟨_, h⟩ | ⟨_, _, _, _, _, _, _, h⟩ |
        ⟨_, _, _, _, _, _, _, _, _, _, _, _, ⟨_, _, h⟩ | ⟨_, h⟩⟩ <;>
      rw [h] <;> exact ⟨rfl, rfl, rfl⟩
  · rcases hrem with ⟨_, h⟩ | ⟨_, _, _, _, _, _, h⟩ | ⟨_, _, _, _, _, _, h⟩ |
        ⟨_, _, _, _, _, _, _, _, _, ⟨_, h⟩ | ⟨_, h⟩⟩ <;>
      rw [h] <;> exact ⟨rfl, rfl, rfl⟩
  · rcases hena with ⟨_, h⟩ | ⟨_, _, _, _, _, _, h⟩ | ⟨_, _, _, _, _, _, h⟩ |
        ⟨_, _, _, _, _, _, _, _, _, ⟨_, h⟩ | ⟨_, h⟩⟩ <;>
      rw [h] <;> exact ⟨rfl, rfl, rfl⟩

/-- Witness of the amended C8 on the sample world: `removeVectors` on the array `[5, 5, 3]`
run with every scene replaced by the scene without manager and every scene pointer by
null ends the same way and leaves the same state, up to that replacement; and the scene
table after the call on the sample world is the one before. -/
theorem bindings_never_touch_scene_witness :
    removeVectors sampleManager
        (sampleWorld.withScenes (fun _ => none) (fun _ => sceneWithoutManager) (fun _ => none))
        1 [5, 5, 3] (some 5)
      = ((removeVectors sampleManager sampleWorld 1 [5, 5, 3] (some 5)).1,
          (removeVectors sampleManager sampleWorld 1 [5, 5, 3] (some 5)).2.withScenes
            (fun _ => none) (fun _ => sceneWithoutManager) (fun _ => none)) ∧
      (removeVectors sampleManager sampleWorld 1 [5, 5, 3] (some 5)).2.scenes
        = sampleWorld.scenes :=
  ⟨(bindings_never_touch_scene 0 sampleManager sampleWorld 1 [some 10] [5, 5, 3] true
      (some 4) (some 5) (fun _ => none) (fun _ => sceneWithoutManager) (fun _ => none)).2.1,
    (bindings_never_touch_scene 0 sampleManager sampleWorld 1 [some 10] [5, 5, 3] true
      (some 4) (some 5) (fun _ => none) (fun _ => sceneWithoutManager)
      (fun _ => none)).2.2.2.2.1.1⟩


/-! ## Width resolution -/

/-- C9: width resolution precedence of the tweaker set up from a builder.  If the builder
has a width expression, the resolved width is the value of that expression at the current
render-time scalar, whether or not a real-world width is set; otherwise, if a real-world
width is set, it is the real-world width converted with the current projection scale;
otherwise it is the fixed line width.  The width always comes from the one parameter named
by `authoritative`. -/
theorem width_resolution_precedence (toLocal : Rat → Rat → Rat)
    (b : WideVectorDrawableBuilder) (frameInfo : RendererFrameInfo) :
    (∀ widthExp, b.widthExp = some widthExp →
      b.setupTweaker.resolveWidth toLocal frameInfo = widthExp.evaluate frameInfo.scalar ∧
      b.setupTweaker.authoritative = WidthSource.widthExpression) ∧
    (b.widthExp = none → b.realWidthSet = true →
      b.setupTweaker.resolveWidth toLocal frameInfo
          = toLocal frameInfo.projectionScale b.realWidth ∧
      b.setupTweaker.authoritative = WidthSource.realWorldWidth) ∧
    (b.widthExp = none → b.realWidthSet = false →
      b.setupTweaker.resolveWidth toLocal frameInfo = b.lineWidth ∧
      b.setupTweaker.authoritative = WidthSource.fixedLineWidth) := by
  refine ⟨?_, ?_, ?_⟩
  · intro widthExp h
    simp [ResolvingTweaker.resolveWidth, ResolvingTweaker.authoritative,
      WideVectorDrawableBuilder.setupTweaker, h]
  · intro h1 h2
    simp [ResolvingTweaker.resolveWidth, ResolvingTweaker.authoritative,
      WideVectorDrawableBuilder.setupTweaker, h1, h2]
  · intro h1 h2
    simp [ResolvingTweaker.resolveWidth, ResolvingTweaker.authoritative,
      WideVectorDrawableBuilder.setupTweaker, h1, h2]

/-- Witness of C9: a builder with line width 4, real-world width 7 and the width expression
"twice the scalar" resolves to the expression (6 at scalar 3, 10 at scalar 5); with the
real-world width only, to its conversion; with neither, to the line width. -/
theorem width_resolution_precedence_witness :
    (((sampleBuilder.setRealWorldWidth 7).setWidthExpression
        (some ⟨fun z => 2 * z⟩)).setupTweaker.resolveWidth (fun scale x => x / scale) ⟨3, 2⟩
      = (fun z : Rat => 2 * z) 3) ∧
    (((sampleBuilder.setRealWorldWidth 7).setWidthExpression
        (some ⟨fun z => 2 * z⟩)).setupTweaker.resolveWidth (fun scale x => x / scale) ⟨5, 2⟩
      = (fun z : Rat => 2 * z) 5) ∧
    ((sampleBuilder.setRealWorldWidth 7).setupTweaker.resolveWidth
        (fun scale x => x / scale) ⟨3, 2⟩ = (fun scale x : Rat => x / scale) 2 7) ∧
    (sampleBuilder.setupTweaker.resolveWidth (fun scale x => x / scale) ⟨3, 2⟩ = 4) :=
  ⟨((width_resolution_precedence (fun scale x => x / scale)
      ((sampleBuilder.setRealWorldWidth 7).setWidthExpression (some ⟨fun z => 2 * z⟩))
      ⟨3, 2⟩).1 ⟨fun z => 2 * z⟩ rfl).1,
    ((width_resolution_precedence (fun scale x => x / scale)
      ((sampleBuilder.setRealWorldWidth 7).setWidthExpression (some ⟨fun z => 2 * z⟩))
      ⟨5, 2⟩).1 ⟨fun z => 2 * z⟩ rfl).1,
    ((width_resolution_precedence (fun scale x => x / scale)
      (sampleBuilder.setRealWorldWidth 7) ⟨3, 2⟩).2.1 rfl rfl).1,
    ((width_resolution_precedence (fun scale x => x / scale)
      sampleBuilder ⟨3, 2⟩).2.2 rfl rfl).1⟩

end WhirlyKit
